import Mathlib

/-!
Kueue admission gate of fluid: a shallow embedding of
`pkg/controllers/v1alpha1/fluidapp/kueue`.

The Go package holds two reconcilers. This development embeds the admission
controller of `controller.go` (`Controller.Reconcile`, `updateWorkload`,
`getAdmissionCheckState`) and the gate activator of `admission_reconciler.go`
(`acReconciler.Reconcile`) as pure functions over an explicit cluster state:

* the object store behind `client.Client` is a pair of finite maps
  (workloads and admission checks, keyed by namespaced name);
* the event recorder is the list of events recorded so far;
* calls to the operation-status collaborator and to `Status().Update` are
  counted in the state, so that "no query" and "no write" are statements
  about the state after the reconcile;
* failures of store calls and the answer of the collaborator are read from
  an environment `Env` that the theorems quantify over.

Logging (`c.log.Error`) has no effect on the store, the recorder or the
result and is left out.
-/

namespace Fluid.Kueue

/-! ## Data model -/

/-- Go `types.NamespacedName`. -/
structure NamespacedName where
  Namespace : String
  Name : String
  deriving DecidableEq, Repr

/-- Go `metav1.StatusReason`, restricted to the reasons the package distinguishes. -/
inductive StatusReason where
  | Unknown
  | NotFound
  | BadRequest
  | Conflict
  | InternalError
  deriving DecidableEq, Repr

/-- A Go `error` value: either an API status error carrying a reason, or a
plain error made by `errors.New`. -/
inductive GoError where
  | status (reason : StatusReason) (message : String)
  | plain (message : String)
  deriving DecidableEq, Repr

/-- Go `errors.IsBadRequest` of `k8s.io/apimachinery/pkg/api/errors`. -/
def IsBadRequest : GoError → Bool
  | .status .BadRequest _ => true
  | _ => false

/-- Go `error.Error()`: the message of an error. -/
def GoError.Error : GoError → String
  | .status _ message => message
  | .plain message => message

/-- Go `errors.IsNotFound` of `k8s.io/apimachinery/pkg/api/errors`. -/
def IsNotFound : GoError → Bool
  | .status .NotFound _ => true
  | _ => false

/-- Go `metav1.ConditionStatus`, a string type: its three declared values and
`Empty`, the zero value (the empty string) that `metav1.Condition{}` carries. -/
inductive ConditionStatus where
  | True
  | False
  | Unknown
  | Empty
  deriving DecidableEq, Repr

/-- Go `metav1.Condition` (its field `Type` is `Type_` here, `Type` being a
keyword); times are natural numbers and `0` is the zero time. -/
structure Condition where
  Type_ : String
  Status : ConditionStatus
  Reason : String
  Message : String
  LastTransitionTime : Nat
  ObservedGeneration : Nat
  deriving DecidableEq, Repr

/-- Go `kueue.CheckState`. -/
inductive CheckState where
  | Retry
  | Rejected
  | Pending
  | Ready
  deriving DecidableEq, Repr

/-- Go `kueue.AdmissionCheckState`: one GateState entry of a workload. -/
structure AdmissionCheckState where
  Name : String
  State : CheckState
  LastTransitionTime : Nat
  Message : String
  PodSetUpdates : List String
  deriving DecidableEq, Repr

/-- Go `v1.PodTemplateSpec`, reduced to its labels (a Go map, here an
association list read with `List.lookup`). -/
structure PodTemplateSpec where
  Labels : List (String × String)
  deriving DecidableEq, Repr

/-- Go `kueue.PodSet`. -/
structure PodSet where
  Name : String
  Template : PodTemplateSpec
  deriving DecidableEq, Repr

/-- Go `kueue.WorkloadSpec`. -/
structure WorkloadSpec where
  PodSets : List PodSet
  deriving DecidableEq, Repr

/-- Go `kueue.WorkloadStatus`. -/
structure WorkloadStatus where
  Conditions : List Condition
  AdmissionChecks : List AdmissionCheckState
  deriving DecidableEq, Repr

/-- Go `kueue.Workload`. -/
structure Workload where
  Namespace : String
  Name : String
  Spec : WorkloadSpec
  Status : WorkloadStatus
  deriving DecidableEq, Repr

/-- Go `kueue.AdmissionCheckSpec`. -/
structure AdmissionCheckSpec where
  ControllerName : String
  deriving DecidableEq, Repr

/-- Go `kueue.AdmissionCheckStatus`. -/
structure AdmissionCheckStatus where
  Conditions : List Condition
  deriving DecidableEq, Repr

/-- Go `kueue.AdmissionCheck`: a cluster-scoped GateDefinition. -/
structure AdmissionCheck where
  Name : String
  Spec : AdmissionCheckSpec
  Status : AdmissionCheckStatus
  deriving DecidableEq, Repr

/-- Go `datav1alpha1.OperationStatus`, reduced to the phase (a Go string type). -/
structure OperationStatus where
  Phase : String
  deriving DecidableEq, Repr

/-- Go `v1.EventTypeNormal` and `v1.EventTypeWarning`. -/
inductive EventType where
  | Normal
  | Warning
  deriving DecidableEq, Repr

/-- One call of `record.EventRecorder.Event`. -/
structure Event where
  object : NamespacedName
  eventtype : EventType
  reason : String
  message : String
  deriving DecidableEq, Repr

/-- Go `reconcile.Result`; `RequeueAfter` is a `time.Duration` in nanoseconds. -/
structure Result where
  Requeue : Bool
  RequeueAfter : Nat
  deriving DecidableEq, Repr

/-- Go `time.Second`, in nanoseconds. -/
def Second : Nat := 1000000000

/-! ## Constants of the package that are declared outside the embedded files -/

/-- The string constants `ControllerName`, `WaitDataOpType`,
`WaitDataOpNameSpace`, `WaitDataOpName` of package `kueue` and
`common.DataOperationNotValid`; their declarations are not part of the
embedded files, so they are parameters of the development. -/
structure Constants where
  ControllerName : String
  WaitDataOpType : String
  WaitDataOpNameSpace : String
  WaitDataOpName : String
  DataOperationNotValid : String
  deriving DecidableEq, Repr

/-- Modelled from the spec: `common.PhaseComplete`, the phase the spec calls
*Complete*; the declaration in `pkg/common` is missing. -/
def PhaseComplete : String := "Complete"

/-- Modelled from the spec: `common.PhaseFailed`, the phase the spec calls
*Failed*; the declaration in `pkg/common` is missing. -/
def PhaseFailed : String := "Failed"

/-- Modelled from the spec: `utils.RequeueIfError` of `pkg/utils`, which is
missing. The spec's reconcile result is one of no-requeue, requeue-after and
requeue-with-error; this helper hands the error (or its absence) to the
driver with an empty result. -/
def RequeueIfError (err : Option GoError) : Result × Option GoError :=
  (⟨false, 0⟩, err)

/-- Modelled from the spec: `utils.NoRequeue` of `pkg/utils`, which is
missing: the no-requeue result, an empty result and no error. -/
def NoRequeue : Result × Option GoError :=
  RequeueIfError none

/-- Modelled from the spec: `utils.RequeueAfterInterval` of `pkg/utils`, which
is missing: the requeue-after result, carrying the delay and no error. -/
def RequeueAfterInterval (interval : Nat) : Result × Option GoError :=
  (⟨false, interval⟩, none)

/-! ## Cluster state and environment -/

/-- The state a reconcile acts on: the object store, the event recorder, and
counters of the calls made to the operation-status collaborator and to
`Status().Update`. -/
structure Cluster where
  workloads : NamespacedName → Option Workload
  admissionChecks : NamespacedName → Option AdmissionCheck
  events : List Event
  opQueries : List (String × NamespacedName)
  statusUpdates : Nat

/-- What a reconcile cannot control: injected failures of store calls, the
answer of the operation-status collaborator `utils.GetDataOperationStatus`
(code of `pkg/utils` that is missing, taken as a parameter), and the clock. -/
structure Env where
  getWorkloadErr : NamespacedName → Option GoError
  getAdmissionCheckErr : NamespacedName → Option GoError
  statusUpdateErr : NamespacedName → Option GoError
  admissionCheckStatusUpdateErr : NamespacedName → Option GoError
  GetDataOperationStatus : String → NamespacedName → Except GoError OperationStatus
  now : Nat

/-- The error a `client.Get` returns for an object that is not stored. -/
def notFoundError (key : NamespacedName) : GoError :=
  .status .NotFound (key.Name ++ " not found")

/-- Go `client.Get` for a `kueue.Workload`. -/
def clientGetWorkload (env : Env) (c : Cluster) (key : NamespacedName) :
    Except GoError Workload :=
  match env.getWorkloadErr key with
  | some err => .error err
  | none =>
    match c.workloads key with
    | none => .error (notFoundError key)
    | some wl => .ok wl

/-- Go `client.Get` for a `kueue.AdmissionCheck`. -/
def clientGetAdmissionCheck (env : Env) (c : Cluster) (key : NamespacedName) :
    Except GoError AdmissionCheck :=
  match env.getAdmissionCheckErr key with
  | some err => .error err
  | none =>
    match c.admissionChecks key with
    | none => .error (notFoundError key)
    | some ac => .ok ac

/-- The key under which the store holds a workload. -/
def Workload.key (wl : Workload) : NamespacedName :=
  ⟨wl.Namespace, wl.Name⟩

/-- Go `client.Status().Update` for a `kueue.Workload`: every call is counted;
a successful call replaces the status of the stored object. -/
def clientStatusUpdateWorkload (env : Env) (c : Cluster) (wl : Workload) :
    Option GoError × Cluster :=
  let c1 := { c with statusUpdates := c.statusUpdates + 1 }
  match env.statusUpdateErr wl.key with
  | some err => (some err, c1)
  | none =>
    match c.workloads wl.key with
    | none => (some (notFoundError wl.key), c1)
    | some stored =>
      (none, { c1 with
        workloads := Function.update c.workloads wl.key
          (some { stored with Status := wl.Status }) })

/-- The key under which the store holds an admission check, a cluster-scoped
object: the namespace is empty. -/
def AdmissionCheck.key (ac : AdmissionCheck) : NamespacedName :=
  ⟨"", ac.Name⟩

/-- Go `client.Status().Update` for a `kueue.AdmissionCheck`: every call is
counted; a successful call replaces the status of the stored object. -/
def clientStatusUpdateAdmissionCheck (env : Env) (c : Cluster) (ac : AdmissionCheck) :
    Option GoError × Cluster :=
  let c1 := { c with statusUpdates := c.statusUpdates + 1 }
  match env.admissionCheckStatusUpdateErr ac.key with
  | some err => (some err, c1)
  | none =>
    match c.admissionChecks ac.key with
    | none => (some (notFoundError ac.key), c1)
    | some stored =>
      (none, { c1 with
        admissionChecks := Function.update c.admissionChecks ac.key
          (some { stored with Status := ac.Status }) })

/-- Go `record.EventRecorder.Event`. -/
def recordEvent (c : Cluster) (object : NamespacedName) (eventtype : EventType)
    (reason message : String) : Cluster :=
  { c with events := c.events ++ [⟨object, eventtype, reason, message⟩] }

/-! ## Library helpers of apimachinery and kueue -/

/-- Go map indexing `labels[key]` without the `ok` result: the value, or the
empty string when the key is absent. -/
def labelValue (labels : List (String × String)) (key : String) : String :=
  (labels.lookup key).getD ""

/-- Go `apimeta.FindStatusCondition`. -/
def FindStatusCondition (conditions : List Condition) (conditionType : String) :
    Option Condition :=
  conditions.find? (fun cond => cond.Type_ = conditionType)

/-- Go `apimeta.IsStatusConditionTrue`. -/
def IsStatusConditionTrue (conditions : List Condition) (conditionType : String) : Bool :=
  match FindStatusCondition conditions conditionType with
  | some cond => cond.Status = ConditionStatus.True
  | none => false

/-- Go `kueue.WorkloadAdmitted`. -/
def WorkloadAdmitted : String := "Admitted"

/-- Go `workload.IsAdmitted` of kueue. -/
def IsAdmitted (wl : Workload) : Bool :=
  IsStatusConditionTrue wl.Status.Conditions WorkloadAdmitted

/-- Go `workload.FindAdmissionCheck` of kueue. -/
def FindAdmissionCheck (checks : List AdmissionCheckState) (checkName : String) :
    Option AdmissionCheckState :=
  checks.find? (fun check => check.Name = checkName)

/-- Go `workload.SetAdmissionCheckState` of kueue: the first entry named like
`newCheck` takes its state, message and pod-set updates (and a transition time
when the state changes); without such an entry `newCheck` is appended. -/
def SetAdmissionCheckState (now : Nat) :
    List AdmissionCheckState → AdmissionCheckState → List AdmissionCheckState
  | [], newCheck =>
    [if newCheck.LastTransitionTime = 0 then
      { newCheck with LastTransitionTime := now } else newCheck]
  | existing :: rest, newCheck =>
    if existing.Name = newCheck.Name then
      { existing with
        State := newCheck.State
        LastTransitionTime :=
          if existing.State ≠ newCheck.State then
            (if newCheck.LastTransitionTime ≠ 0 then newCheck.LastTransitionTime else now)
          else existing.LastTransitionTime
        Message := newCheck.Message
        PodSetUpdates := newCheck.PodSetUpdates } :: rest
    else existing :: SetAdmissionCheckState now rest newCheck

/-- Go `kueue.AdmissionCheckActive`. -/
def AdmissionCheckActive : String := "Active"

/-- Go `metav1.Condition{}`, the zero value. -/
def zeroCondition : Condition :=
  ⟨"", .Empty, "", "", 0, 0⟩

/-- Go `ptr.Deref` of `k8s.io/utils/ptr`. -/
def ptrDeref {α : Type} (p : Option α) (d : α) : α :=
  match p with
  | some v => v
  | none => d

/-- Go `client.IgnoreNotFound` of controller-runtime. -/
def IgnoreNotFound (err : Option GoError) : Option GoError :=
  match err with
  | some e => if IsNotFound e then none else some e
  | none => none

/-- Go `apimeta.SetStatusCondition`: the first condition of the type of
`newCondition` takes its status (and a transition time when the status
changes), reason, message and observed generation; without such a condition
`newCondition` is appended. -/
def SetStatusCondition (now : Nat) : List Condition → Condition → List Condition
  | [], newCondition =>
    [if newCondition.LastTransitionTime = 0 then
      { newCondition with LastTransitionTime := now } else newCondition]
  | existing :: rest, newCondition =>
    if existing.Type_ = newCondition.Type_ then
      { existing with
        Status := newCondition.Status
        LastTransitionTime :=
          if existing.Status ≠ newCondition.Status then
            (if newCondition.LastTransitionTime ≠ 0 then newCondition.LastTransitionTime
              else now)
          else existing.LastTransitionTime
        Reason := newCondition.Reason
        Message := newCondition.Message
        ObservedGeneration := newCondition.ObservedGeneration } :: rest
    else existing :: SetStatusCondition now rest newCondition

/-! ## The admission controller (`controller.go`) -/

/-- Go `getAdmissionCheckState`: the first entry, in list order, whose
admission check has the given controller name; a failed fetch ends the scan. -/
def getAdmissionCheckState (env : Env) (c : Cluster) :
    List AdmissionCheckState → String → Except GoError (Option AdmissionCheckState)
  | [], _ => .ok none
  | state :: rest, controllerName =>
    match clientGetAdmissionCheck env c ⟨"", state.Name⟩ with
    | .error err => .error err
    | .ok ac =>
      if ac.Spec.ControllerName = controllerName then .ok (some state)
      else getAdmissionCheckState env c rest controllerName

/-- Go `updateWorkload`. -/
def updateWorkload (k : Constants) (env : Env) (c : Cluster) (wl : Workload)
    (state : CheckState) (message : String) : Option GoError × Cluster :=
  match getAdmissionCheckState env c wl.Status.AdmissionChecks k.ControllerName with
  | .error err => (some err, c)
  | .ok none =>
    (some (.plain ("can not find admission check state for " ++ k.ControllerName)), c)
  | .ok (some checkState) =>
    let checkState := { checkState with State := state, Message := message }
    let wl := { wl with Status := { wl.Status with
      AdmissionChecks := SetAdmissionCheckState env.now wl.Status.AdmissionChecks checkState } }
    clientStatusUpdateWorkload env c wl

/-- Go `Controller.Reconcile`. -/
def Controller.Reconcile (k : Constants) (env : Env) (c : Cluster) (req : NamespacedName) :
    (Result × Option GoError) × Cluster :=
  match clientGetWorkload env c req with
  | .error err => (RequeueIfError (some err), c)
  | .ok wl =>
    if IsAdmitted wl then (NoRequeue, c)
    else
      let podSets := wl.Spec.PodSets
      if h : podSets.length ≠ 1 then (NoRequeue, c)
      else
        let podLabels := (podSets.get ⟨0, by omega⟩).Template.Labels
        match podLabels.lookup k.WaitDataOpType with
        | none => (NoRequeue, c)
        | some opType =>
          let opNamespace := labelValue podLabels k.WaitDataOpNameSpace
          let opName := labelValue podLabels k.WaitDataOpName
          let opNamespacedName : NamespacedName := ⟨opNamespace, opName⟩
          let c := { c with opQueries := c.opQueries ++ [(opType, opNamespacedName)] }
          match env.GetDataOperationStatus opType opNamespacedName with
          | .error err =>
            if IsBadRequest err then
              (NoRequeue, recordEvent c wl.key .Warning k.DataOperationNotValid err.Error)
            else (RequeueIfError (some err), c)
          | .ok opStatus =>
            let opStatusPhase := opStatus.Phase
            if opStatusPhase = PhaseFailed then
              let c := recordEvent c wl.key .Warning "Waiting DataOperation failed" "reject workload"
              match updateWorkload k env c wl .Rejected "waited data operation is failed" with
              | (some err, c) => (RequeueIfError (some err), c)
              | (none, c) => (NoRequeue, c)
            else if opStatusPhase = PhaseComplete then
              let c := recordEvent c wl.key .Normal "Waiting DataOperation completed" "run workload"
              match updateWorkload k env c wl .Ready "waited data operation is completed" with
              | (some err, c) => (RequeueIfError (some err), c)
              | (none, c) => (NoRequeue, c)
            else (RequeueAfterInterval (10 * Second), c)

/-! ## The gate activator (`admission_reconciler.go`) -/

/-- Go `acReconciler.Reconcile`. -/
def acReconciler.Reconcile (k : Constants) (env : Env) (c : Cluster) (req : NamespacedName) :
    (Result × Option GoError) × Cluster :=
  match clientGetAdmissionCheck env c req with
  | .error err => ((⟨false, 0⟩, IgnoreNotFound (some err)), c)
  | .ok ac =>
    if ac.Spec.ControllerName ≠ k.ControllerName then ((⟨false, 0⟩, IgnoreNotFound none), c)
    else
      let currentCondition :=
        ptrDeref (FindStatusCondition ac.Status.Conditions AdmissionCheckActive) zeroCondition
      let newCondition : Condition :=
        { Type_ := AdmissionCheckActive
          Status := .True
          Reason := "Active"
          Message := "The admission check is active"
          LastTransitionTime := 0
          ObservedGeneration := 0 }
      if currentCondition.Status ≠ newCondition.Status then
        let ac := { ac with Status := { ac.Status with
          Conditions := SetStatusCondition env.now ac.Status.Conditions newCondition } }
        match clientStatusUpdateAdmissionCheck env c ac with
        | (err, c) => (RequeueIfError err, c)
      else (NoRequeue, c)

/-! ## Predicates used to state the properties -/

/-- The entry's admission check is fetched successfully and has the given
controller name: the entry is owned by that controller. -/
def ownedEntry (env : Env) (c : Cluster) (controllerName : String)
    (e : AdmissionCheckState) : Bool :=
  match clientGetAdmissionCheck env c ⟨"", e.Name⟩ with
  | .ok ac => ac.Spec.ControllerName = controllerName
  | .error _ => false

/-- The entry's admission check is fetched successfully and has another
controller name. -/
def foreignEntry (env : Env) (c : Cluster) (controllerName : String)
    (e : AdmissionCheckState) : Bool :=
  match clientGetAdmissionCheck env c ⟨"", e.Name⟩ with
  | .ok ac => ac.Spec.ControllerName ≠ controllerName
  | .error _ => false

/-- The operation reference read from the labels of a pod set. -/
def opRef (k : Constants) (ps : PodSet) : NamespacedName :=
  ⟨labelValue ps.Template.Labels k.WaitDataOpNameSpace,
   labelValue ps.Template.Labels k.WaitDataOpName⟩

/-! ## A concrete cluster, after `controller_test.go` -/

/-- Constants used by the concrete examples. -/
def k0 : Constants :=
  { ControllerName := "fluid.io/dataop-gate"
    WaitDataOpType := "fluid.io/wait-data-operation-type"
    WaitDataOpNameSpace := "fluid.io/wait-data-operation-namespace"
    WaitDataOpName := "fluid.io/wait-data-operation-name"
    DataOperationNotValid := "DataOperationNotValid" }

/-- The workload of the test cases: one pod set with the given labels and the
given entries. -/
def testWorkload (labels : List (String × String)) (conds : List Condition)
    (checks : List AdmissionCheckState) : Workload :=
  { Namespace := "", Name := "test-workload"
    Spec := ⟨[⟨"main", ⟨labels⟩⟩]⟩
    Status := ⟨conds, checks⟩ }

/-- A store holding one workload, the owned check `test-check` and the
foreign check `other-check`. -/
def testCluster (wl : Workload) : Cluster :=
  { workloads := fun key => if key = wl.key then some wl else none
    admissionChecks := fun key =>
      if key = ⟨"", "test-check"⟩ then some ⟨"test-check", ⟨k0.ControllerName⟩, ⟨[]⟩⟩
      else if key = ⟨"", "other-check"⟩ then some ⟨"other-check", ⟨"other"⟩, ⟨[]⟩⟩
      else none
    events := []
    opQueries := []
    statusUpdates := 0 }

/-- An environment without injected failures in which every operation reports
the given phase. -/
def testEnv (phase : String) : Env :=
  { getWorkloadErr := fun _ => none
    getAdmissionCheckErr := fun _ => none
    statusUpdateErr := fun _ => none
    admissionCheckStatusUpdateErr := fun _ => none
    GetDataOperationStatus := fun _ _ => .ok ⟨phase⟩
    now := 7 }

/-- The labels of the gated test workload. -/
def gateLabels : List (String × String) :=
  [(k0.WaitDataOpType, "DataLoad"), (k0.WaitDataOpName, "test-dataload")]

/-- A pending entry of the given name. -/
def pendingCheck (name : String) : AdmissionCheckState :=
  ⟨name, .Pending, 0, "", []⟩

/-- A gated, not yet admitted workload whose second entry is the owned one. -/
def wlPending : Workload :=
  testWorkload gateLabels [] [pendingCheck "other-check", pendingCheck "test-check"]

/-- A gated, not yet admitted workload whose only entry is foreign. -/
def wlForeign : Workload :=
  testWorkload gateLabels [] [pendingCheck "other-check"]

/-- The workload of the test case "no dataop": no label on the template. -/
def wlNoLabel : Workload :=
  testWorkload [] [] [pendingCheck "test-check"]

/-- An admitted workload whose owned entry is Ready. -/
def wlAdmitted : Workload :=
  testWorkload gateLabels [⟨WorkloadAdmitted, .True, "Admitted", "", 3, 0⟩]
    [⟨"test-check", .Ready, 2, "waited data operation is completed", []⟩]

/-- A gated, not yet admitted workload whose owned entry is already Ready. -/
def wlReady : Workload :=
  testWorkload gateLabels []
    [⟨"test-check", .Ready, 2, "waited data operation is completed", []⟩]

/-- An environment without injected store failures in which the
operation-status lookup fails with the given error. -/
def testEnvLookupError (err : GoError) : Env :=
  { testEnv "" with GetDataOperationStatus := fun _ _ => .error err }

/-- An owned admission check named `test` with the given conditions, as in
`admission_reconciler_test.go`. -/
def testCheck (conds : List Condition) : AdmissionCheck :=
  ⟨"test", ⟨k0.ControllerName⟩, ⟨conds⟩⟩

/-- An admission check named `test` that belongs to another controller. -/
def foreignCheck (conds : List Condition) : AdmissionCheck :=
  ⟨"test", ⟨"other"⟩, ⟨conds⟩⟩

/-- A store holding one admission check and nothing else. -/
def checkCluster (ac : AdmissionCheck) : Cluster :=
  { workloads := fun _ => none
    admissionChecks := fun key => if key = ac.key then some ac else none
    events := []
    opQueries := []
    statusUpdates := 0 }

/-- The Active condition the activator writes at time `now`. -/
def activeCondition (now : Nat) : Condition :=
  ⟨AdmissionCheckActive, .True, "Active", "The admission check is active", now, 0⟩

/-- The conditions of the admission check stored under `key`. -/
def storedConditions (c : Cluster) (key : NamespacedName) : Option (List Condition) :=
  (c.admissionChecks key).map (fun stored => stored.Status.Conditions)

/-- A gated workload with a foreign entry, the owned entry, and a later entry
of the same name. -/
def wlTwice : Workload :=
  testWorkload gateLabels []
    [pendingCheck "other-check", pendingCheck "test-check", pendingCheck "test-check"]

/-- A gated workload whose first entry references an admission check that the
store does not hold, followed by the owned entry. -/
def wlBroken : Workload :=
  testWorkload gateLabels [] [pendingCheck "missing-check", pendingCheck "test-check"]

/-- A gated, not yet admitted workload with two pending entries, `gate-a` and
`gate-b`. -/
def wlTwoOwned : Workload :=
  testWorkload gateLabels [] [pendingCheck "gate-a", pendingCheck "gate-b"]

/-- A store holding one workload and the admission checks `gate-a` and
`gate-b`, both owned by this controller. -/
def twoGateCluster (wl : Workload) : Cluster :=
  { workloads := fun key => if key = wl.key then some wl else none
    admissionChecks := fun key =>
      if key = ⟨"", "gate-a"⟩ then some ⟨"gate-a", ⟨k0.ControllerName⟩, ⟨[]⟩⟩
      else if key = ⟨"", "gate-b"⟩ then some ⟨"gate-b", ⟨k0.ControllerName⟩, ⟨[]⟩⟩
      else none
    events := []
    opQueries := []
    statusUpdates := 0 }

/-- The state of the entry at position `i` of the workload stored under `key`. -/
def storedState (c : Cluster) (key : NamespacedName) (i : Nat) : Option CheckState :=
  (c.workloads key).bind
    (fun stored => (stored.Status.AdmissionChecks[i]?).map (fun e => e.State))

/-! ## Auxiliary lemmas -/

theorem clientGetAdmissionCheck_congr (env : Env) (c1 c2 : Cluster)
    (h : c1.admissionChecks = c2.admissionChecks) (key : NamespacedName) :
    clientGetAdmissionCheck env c1 key = clientGetAdmissionCheck env c2 key := by
  simp [clientGetAdmissionCheck, h]

theorem getAdmissionCheckState_congr (env : Env) (c1 c2 : Cluster)
    (h : c1.admissionChecks = c2.admissionChecks) (cn : String) :
    ∀ l : List AdmissionCheckState,
      getAdmissionCheckState env c1 l cn = getAdmissionCheckState env c2 l cn
  | [] => rfl
  | e :: rest => by
    simp only [getAdmissionCheckState, clientGetAdmissionCheck_congr env c1 c2 h,
      getAdmissionCheckState_congr env c1 c2 h cn rest]

theorem ownedEntry_congr (env : Env) (c1 c2 : Cluster)
    (h : c1.admissionChecks = c2.admissionChecks) (cn : String) (e : AdmissionCheckState) :
    ownedEntry env c1 cn e = ownedEntry env c2 cn e := by
  simp only [ownedEntry, clientGetAdmissionCheck_congr env c1 c2 h]

theorem foreignEntry_congr (env : Env) (c1 c2 : Cluster)
    (h : c1.admissionChecks = c2.admissionChecks) (cn : String) (e : AdmissionCheckState) :
    foreignEntry env c1 cn e = foreignEntry env c2 cn e := by
  simp only [foreignEntry, clientGetAdmissionCheck_congr env c1 c2 h]

/-- The scan returns the first owned entry when every entry before it is
fetched and foreign. -/
theorem getAdmissionCheckState_first (env : Env) (c : Cluster) (cn : String) :
    ∀ (l : List AdmissionCheckState) (i : Nat) (entry : AdmissionCheckState),
      l[i]? = some entry → ownedEntry env c cn entry = true →
      (∀ e ∈ l.take i, foreignEntry env c cn e = true) →
      getAdmissionCheckState env c l cn = .ok (some entry)
  | [], i, entry, h, _, _ => by simp at h
  | e :: rest, 0, entry, h, ho, _ => by
    simp at h
    subst h
    simp only [ownedEntry] at ho
    simp only [getAdmissionCheckState]
    split
    · next err herr => simp [herr] at ho
    · next ac hac =>
      simp [hac] at ho
      simp [ho]
  | e :: rest, i + 1, entry, h, ho, hb => by
    have he : foreignEntry env c cn e = true := hb e (by simp)
    have hrest : ∀ e2 ∈ rest.take i, foreignEntry env c cn e2 = true := by
      intro e2 h2
      exact hb e2 (by simp [h2])
    simp only [foreignEntry] at he
    simp only [getAdmissionCheckState]
    split
    · next err herr => simp [herr] at he
    · next ac hac =>
      simp [hac] at he
      simp only [he, if_false]
      exact getAdmissionCheckState_first env c cn rest i entry (by simpa using h) ho hrest

/-- A foreign entry and an owned entry have different names. -/
theorem name_ne_of_foreign_of_owned (env : Env) (c : Cluster) (cn : String)
    (e entry : AdmissionCheckState) (hf : foreignEntry env c cn e = true)
    (ho : ownedEntry env c cn entry = true) : e.Name ≠ entry.Name := by
  intro hname
  simp only [foreignEntry, ownedEntry, hname] at hf ho
  split at hf
  · next ac hac =>
    simp [hac] at ho
    simp [ho] at hf
  · simp at hf

/-- The entry written by `SetAdmissionCheckState` at the first position that
carries the name of the new check. -/
theorem SetAdmissionCheckState_getElem (now : Nat) (newCheck : AdmissionCheckState) :
    ∀ (l : List AdmissionCheckState) (i : Nat) (entry : AdmissionCheckState),
      l[i]? = some entry → entry.Name = newCheck.Name →
      (∀ e ∈ l.take i, e.Name ≠ newCheck.Name) →
      (SetAdmissionCheckState now l newCheck)[i]? = some
        { entry with
          State := newCheck.State
          LastTransitionTime :=
            if entry.State ≠ newCheck.State then
              (if newCheck.LastTransitionTime ≠ 0 then newCheck.LastTransitionTime else now)
            else entry.LastTransitionTime
          Message := newCheck.Message
          PodSetUpdates := newCheck.PodSetUpdates }
  | [], i, entry, h, _, _ => by simp at h
  | e :: rest, 0, entry, h, hn, _ => by
    simp at h
    subst h
    simp [SetAdmissionCheckState, hn]
  | e :: rest, i + 1, entry, h, hn, hb => by
    have he : e.Name ≠ newCheck.Name := hb e (by simp)
    have hrest : ∀ e2 ∈ rest.take i, e2.Name ≠ newCheck.Name := by
      intro e2 h2
      exact hb e2 (by simp [h2])
    simp only [SetAdmissionCheckState, he, if_false]
    simpa using SetAdmissionCheckState_getElem now newCheck rest i entry (by simpa using h) hn hrest

/-- The reconcile of a gated workload whose operation reports *Failed*. -/
theorem Reconcile_of_failed (k : Constants) (env : Env) (c : Cluster) (wl : Workload)
    (ps : PodSet) (opType : String)
    (hget : env.getWorkloadErr wl.key = none) (hstored : c.workloads wl.key = some wl)
    (hadm : IsAdmitted wl = false) (hps : wl.Spec.PodSets = [ps])
    (hlab : ps.Template.Labels.lookup k.WaitDataOpType = some opType)
    (hop : env.GetDataOperationStatus opType (opRef k ps) = .ok ⟨PhaseFailed⟩) :
    Controller.Reconcile k env c wl.key =
      match updateWorkload k env
        (recordEvent { c with opQueries := c.opQueries ++ [(opType, opRef k ps)] } wl.key
          .Warning "Waiting DataOperation failed" "reject workload")
        wl .Rejected "waited data operation is failed" with
      | (some err, c2) => (RequeueIfError (some err), c2)
      | (none, c2) => (NoRequeue, c2) := by
  simp only [opRef] at hop
  simp [Controller.Reconcile, clientGetWorkload, hget, hstored, hadm, hps, hlab, hop, opRef]

/-- The reconcile of a gated workload whose operation reports *Complete*. -/
theorem Reconcile_of_complete (k : Constants) (env : Env) (c : Cluster) (wl : Workload)
    (ps : PodSet) (opType : String)
    (hget : env.getWorkloadErr wl.key = none) (hstored : c.workloads wl.key = some wl)
    (hadm : IsAdmitted wl = false) (hps : wl.Spec.PodSets = [ps])
    (hlab : ps.Template.Labels.lookup k.WaitDataOpType = some opType)
    (hop : env.GetDataOperationStatus opType (opRef k ps) = .ok ⟨PhaseComplete⟩) :
    Controller.Reconcile k env c wl.key =
      match updateWorkload k env
        (recordEvent { c with opQueries := c.opQueries ++ [(opType, opRef k ps)] } wl.key
          .Normal "Waiting DataOperation completed" "run workload")
        wl .Ready "waited data operation is completed" with
      | (some err, c2) => (RequeueIfError (some err), c2)
      | (none, c2) => (NoRequeue, c2) := by
  simp only [opRef] at hop
  have hne : ¬ PhaseComplete = PhaseFailed := by decide
  simp [Controller.Reconcile, clientGetWorkload, hget, hstored, hadm, hps, hlab, hop, opRef, hne]

/-- The reconcile of a gated workload whose operation is still running. -/
theorem Reconcile_of_running (k : Constants) (env : Env) (c : Cluster) (wl : Workload)
    (ps : PodSet) (opType phase : String)
    (hget : env.getWorkloadErr wl.key = none) (hstored : c.workloads wl.key = some wl)
    (hadm : IsAdmitted wl = false) (hps : wl.Spec.PodSets = [ps])
    (hlab : ps.Template.Labels.lookup k.WaitDataOpType = some opType)
    (hop : env.GetDataOperationStatus opType (opRef k ps) = .ok ⟨phase⟩)
    (hc : phase ≠ PhaseComplete) (hf : phase ≠ PhaseFailed) :
    Controller.Reconcile k env c wl.key =
      (RequeueAfterInterval (10 * Second),
        { c with opQueries := c.opQueries ++ [(opType, opRef k ps)] }) := by
  simp only [opRef] at hop
  simp [Controller.Reconcile, clientGetWorkload, hget, hstored, hadm, hps, hlab, hop, opRef,
    hc, hf]

/-- The reconcile of a gated workload whose operation-status lookup fails. -/
theorem Reconcile_of_lookup_error (k : Constants) (env : Env) (c : Cluster) (wl : Workload)
    (ps : PodSet) (opType : String) (err : GoError)
    (hget : env.getWorkloadErr wl.key = none) (hstored : c.workloads wl.key = some wl)
    (hadm : IsAdmitted wl = false) (hps : wl.Spec.PodSets = [ps])
    (hlab : ps.Template.Labels.lookup k.WaitDataOpType = some opType)
    (hop : env.GetDataOperationStatus opType (opRef k ps) = .error err) :
    Controller.Reconcile k env c wl.key =
      if IsBadRequest err then
        (NoRequeue, recordEvent { c with opQueries := c.opQueries ++ [(opType, opRef k ps)] }
          wl.key .Warning k.DataOperationNotValid err.Error)
      else
        (RequeueIfError (some err),
          { c with opQueries := c.opQueries ++ [(opType, opRef k ps)] }) := by
  simp only [opRef] at hop
  simp [Controller.Reconcile, clientGetWorkload, hget, hstored, hadm, hps, hlab, hop, opRef]

/-- A commit on a stored workload whose first owned entry sits at position `i`
succeeds and replaces the stored status. -/
theorem updateWorkload_of_owned (k : Constants) (env : Env) (c : Cluster) (wl : Workload)
    (i : Nat) (entry : AdmissionCheckState) (state : CheckState) (message : String)
    (hstored : c.workloads wl.key = some wl)
    (hentry : wl.Status.AdmissionChecks[i]? = some entry)
    (howned : ownedEntry env c k.ControllerName entry = true)
    (hbefore : ∀ e ∈ wl.Status.AdmissionChecks.take i,
      foreignEntry env c k.ControllerName e = true)
    (hupd : env.statusUpdateErr wl.key = none) :
    updateWorkload k env c wl state message =
      (none, { c with
        statusUpdates := c.statusUpdates + 1
        workloads := Function.update c.workloads wl.key
          (some { wl with Status := { wl.Status with
            AdmissionChecks := SetAdmissionCheckState env.now wl.Status.AdmissionChecks
              { entry with State := state, Message := message } } }) }) := by
  have hscan := getAdmissionCheckState_first env c k.ControllerName
    wl.Status.AdmissionChecks i entry hentry howned hbefore
  simp [updateWorkload, hscan, clientStatusUpdateWorkload, Workload.key, hupd] 
  simp [Workload.key] at hupd hstored
  simp [hupd, hstored]

/-- A failed fetch of the workload is handed to the driver as it is. -/
theorem Reconcile_of_fetch_error (k : Constants) (env : Env) (c : Cluster)
    (req : NamespacedName) (err : GoError)
    (hget : clientGetWorkload env c req = .error err) :
    Controller.Reconcile k env c req = (RequeueIfError (some err), c) := by
  simp [Controller.Reconcile, hget]

/-- An admitted workload is left alone. -/
theorem Reconcile_of_admitted (k : Constants) (env : Env) (c : Cluster)
    (req : NamespacedName) (wl : Workload)
    (hget : clientGetWorkload env c req = .ok wl) (hadm : IsAdmitted wl = true) :
    Controller.Reconcile k env c req = (NoRequeue, c) := by
  simp [Controller.Reconcile, hget, hadm]

/-- A workload without exactly one pod set is left alone. -/
theorem Reconcile_of_not_single (k : Constants) (env : Env) (c : Cluster)
    (req : NamespacedName) (wl : Workload)
    (hget : clientGetWorkload env c req = .ok wl) (hlen : wl.Spec.PodSets.length ≠ 1) :
    Controller.Reconcile k env c req = (NoRequeue, c) := by
  simp only [Controller.Reconcile, hget]
  split
  · rfl
  · simp [hlen]

/-- A workload whose single template lacks the operation-type label is left alone. -/
theorem Reconcile_of_no_label (k : Constants) (env : Env) (c : Cluster)
    (req : NamespacedName) (wl : Workload) (ps : PodSet)
    (hget : clientGetWorkload env c req = .ok wl) (hps : wl.Spec.PodSets = [ps])
    (hlab : ps.Template.Labels.lookup k.WaitDataOpType = none) :
    Controller.Reconcile k env c req = (NoRequeue, c) := by
  simp only [Controller.Reconcile, hget]
  split
  · rfl
  · simp [hps, hlab]

/-- The fetch of a stored workload without injected failure. -/
theorem clientGetWorkload_of_stored (env : Env) (c : Cluster) (wl : Workload)
    (hget : env.getWorkloadErr wl.key = none) (hstored : c.workloads wl.key = some wl) :
    clientGetWorkload env c wl.key = .ok wl := by
  simp [clientGetWorkload, hget, hstored]

/-- The scan finds nothing when every entry is fetched and foreign. -/
theorem getAdmissionCheckState_of_foreign (env : Env) (c : Cluster) (cn : String) :
    ∀ l : List AdmissionCheckState, (∀ e ∈ l, foreignEntry env c cn e = true) →
      getAdmissionCheckState env c l cn = .ok none
  | [], _ => rfl
  | e :: rest, h => by
    have he : foreignEntry env c cn e = true := h e (by simp)
    have hrest : ∀ e2 ∈ rest, foreignEntry env c cn e2 = true := fun e2 h2 =>
      h e2 (by simp [h2])
    simp only [foreignEntry] at he
    simp only [getAdmissionCheckState]
    split
    · next err herr => simp [herr] at he
    · next ac hac =>
      simp [hac] at he
      simp only [he, if_false]
      exact getAdmissionCheckState_of_foreign env c cn rest hrest

/-- The scan never returns an entry when no entry is owned. -/
theorem getAdmissionCheckState_of_none_owned (env : Env) (c : Cluster) (cn : String) :
    ∀ l : List AdmissionCheckState, (∀ e ∈ l, ownedEntry env c cn e = false) →
      ∀ found, getAdmissionCheckState env c l cn ≠ .ok (some found)
  | [], _, found => by simp [getAdmissionCheckState]
  | e :: rest, h, found => by
    have he : ownedEntry env c cn e = false := h e (by simp)
    have hrest : ∀ e2 ∈ rest, ownedEntry env c cn e2 = false := fun e2 h2 =>
      h e2 (by simp [h2])
    simp only [ownedEntry] at he
    simp only [getAdmissionCheckState]
    split
    · simp
    · next ac hac =>
      simp [hac] at he
      simp only [he, if_false]
      exact getAdmissionCheckState_of_none_owned env c cn rest hrest found

/-- A commit on a workload without owned entry fails and writes nothing. -/
theorem updateWorkload_of_none_owned (k : Constants) (env : Env) (c : Cluster)
    (wl : Workload) (state : CheckState) (message : String)
    (hnone : ∀ e ∈ wl.Status.AdmissionChecks, ownedEntry env c k.ControllerName e = false) :
    ∃ err, updateWorkload k env c wl state message = (some err, c) := by
  have hscan := getAdmissionCheckState_of_none_owned env c k.ControllerName
    wl.Status.AdmissionChecks hnone
  simp only [updateWorkload]
  split
  · next err _ => exact ⟨err, rfl⟩
  · exact ⟨_, rfl⟩
  · next found hfound => exact absurd hfound (hscan found)

/-- The cluster a reconcile is left with after a commit is the one the commit
produced, whether the commit failed or not. -/
theorem commit_result_snd (r : Option GoError × Cluster) :
    (match r with
      | (some err, c2) => (RequeueIfError (some err), c2)
      | (none, c2) => (NoRequeue, c2)).2 = r.2 := by
  rcases r with ⟨_ | _, _⟩ <;> rfl

/-- The effect of a commit on a stored workload whose first owned entry sits at
position `i`: one status update is made, and either the store is unchanged (the
update failed) or the stored entry at `i` carries the committed state. -/
theorem updateWorkload_effect (k : Constants) (env : Env) (c : Cluster) (wl : Workload)
    (i : Nat) (entry : AdmissionCheckState) (state : CheckState) (message : String)
    (hstored : c.workloads wl.key = some wl)
    (hentry : wl.Status.AdmissionChecks[i]? = some entry)
    (howned : ownedEntry env c k.ControllerName entry = true)
    (hbefore : ∀ e ∈ wl.Status.AdmissionChecks.take i,
      foreignEntry env c k.ControllerName e = true) :
    (updateWorkload k env c wl state message).2.statusUpdates = c.statusUpdates + 1 ∧
    ((updateWorkload k env c wl state message).2.workloads = c.workloads ∨
      storedState (updateWorkload k env c wl state message).2 wl.key i = some state) := by
  cases hupd : env.statusUpdateErr wl.key with
  | none =>
    have hnames : ∀ e ∈ wl.Status.AdmissionChecks.take i, e.Name ≠ entry.Name := fun e he =>
      name_ne_of_foreign_of_owned env c k.ControllerName e entry (hbefore e he) howned
    have hset := SetAdmissionCheckState_getElem env.now
      { entry with State := state, Message := message }
      wl.Status.AdmissionChecks i entry hentry rfl hnames
    rw [updateWorkload_of_owned k env c wl i entry state message hstored hentry howned
      hbefore hupd]
    refine ⟨rfl, Or.inr ?_⟩
    simp [storedState, hset]
  | some err =>
    have hscan := getAdmissionCheckState_first env c k.ControllerName
      wl.Status.AdmissionChecks i entry hentry howned hbefore
    simp only [Workload.key] at hupd
    simp [updateWorkload, hscan, clientStatusUpdateWorkload, Workload.key, hupd]

/-! ## The phase mapping -/

/-- C1, as stated, fails for an owned entry that is not the first owned one:
the workload holds two entries whose admission checks are both owned, it is
fetched, not admitted, has one pod set carrying the operation-type label, the
operation reports *Complete* and no store call fails; the reconcile returns
no-requeue without error and records one Normal event, the first entry is
Ready, and the second owned entry is still Pending. -/
theorem complete_leaves_second_owned_entry_counterexample :
    IsAdmitted wlTwoOwned = false ∧
    wlTwoOwned.Status.AdmissionChecks[1]? = some (pendingCheck "gate-b") ∧
    ownedEntry (testEnv "Complete") (twoGateCluster wlTwoOwned) k0.ControllerName
      (pendingCheck "gate-b") = true ∧
    (Controller.Reconcile k0 (testEnv "Complete") (twoGateCluster wlTwoOwned)
      wlTwoOwned.key).1 = (⟨false, 0⟩, none) ∧
    (Controller.Reconcile k0 (testEnv "Complete") (twoGateCluster wlTwoOwned)
      wlTwoOwned.key).2.events =
      [⟨wlTwoOwned.key, .Normal, "Waiting DataOperation completed", "run workload"⟩] ∧
    storedState (Controller.Reconcile k0 (testEnv "Complete") (twoGateCluster wlTwoOwned)
      wlTwoOwned.key).2 wlTwoOwned.key 0 = some .Ready ∧
    storedState (Controller.Reconcile k0 (testEnv "Complete") (twoGateCluster wlTwoOwned)
      wlTwoOwned.key).2 wlTwoOwned.key 1 = some .Pending := by
  decide

/-- C1, amended to the first owned entry: for a stored workload that is
fetched, not admitted, has exactly one pod set carrying the operation-type
label, and whose entry at position `i` is the first entry in list order whose
admission check is owned by this controller (the entries before it are fetched
and foreign): when the operation reports *Complete* and the status update
succeeds, the reconcile returns no-requeue without error, the stored entry at
`i` is Ready with message "waited data operation is completed", and exactly
one event, a Normal one, is added to the recorder. -/
theorem reconcile_complete_commits_ready (k : Constants) (env : Env) (c : Cluster)
    (wl : Workload) (ps : PodSet) (opType : String) (i : Nat) (entry : AdmissionCheckState)
    (hget : env.getWorkloadErr wl.key = none) (hstored : c.workloads wl.key = some wl)
    (hadm : IsAdmitted wl = false) (hps : wl.Spec.PodSets = [ps])
    (hlab : ps.Template.Labels.lookup k.WaitDataOpType = some opType)
    (hop : env.GetDataOperationStatus opType (opRef k ps) = .ok ⟨PhaseComplete⟩)
    (hentry : wl.Status.AdmissionChecks[i]? = some entry)
    (howned : ownedEntry env c k.ControllerName entry = true)
    (hbefore : ∀ e ∈ wl.Status.AdmissionChecks.take i,
      foreignEntry env c k.ControllerName e = true)
    (hupd : env.statusUpdateErr wl.key = none) :
    (Controller.Reconcile k env c wl.key).1 = (⟨false, 0⟩, none) ∧
    ((Controller.Reconcile k env c wl.key).2.workloads wl.key).bind
        (fun stored => stored.Status.AdmissionChecks[i]?) =
      some { entry with
        State := .Ready
        Message := "waited data operation is completed"
        LastTransitionTime :=
          if entry.State ≠ .Ready then
            (if entry.LastTransitionTime ≠ 0 then entry.LastTransitionTime else env.now)
          else entry.LastTransitionTime } ∧
    (Controller.Reconcile k env c wl.key).2.events =
      c.events ++ [⟨wl.key, .Normal, "Waiting DataOperation completed", "run workload"⟩] := by
  have hnames : ∀ e ∈ wl.Status.AdmissionChecks.take i, e.Name ≠ entry.Name := fun e he =>
    name_ne_of_foreign_of_owned env c k.ControllerName e entry (hbefore e he) howned
  have hset := SetAdmissionCheckState_getElem env.now
    { entry with State := .Ready, Message := "waited data operation is completed" }
    wl.Status.AdmissionChecks i entry hentry rfl hnames
  rw [Reconcile_of_complete k env c wl ps opType hget hstored hadm hps hlab hop]
  rw [updateWorkload_of_owned k env
    (recordEvent { c with opQueries := c.opQueries ++ [(opType, opRef k ps)] } wl.key
      .Normal "Waiting DataOperation completed" "run workload")
    wl i entry .Ready _ hstored hentry
    ((ownedEntry_congr env _ c rfl _ _).trans howned)
    (fun e he => (foreignEntry_congr env _ c rfl _ _).trans (hbefore e he)) hupd]
  refine ⟨rfl, ?_, rfl⟩
  simpa [recordEvent] using hset

/-- C2, as stated, fails for an owned entry that is not the first owned one:
the workload holds two entries whose admission checks are both owned, it is
fetched, not admitted, has one pod set carrying the operation-type label, the
operation reports *Failed* and no store call fails; the reconcile returns
no-requeue without error and records one Warning event, the first entry is
Rejected, and the second owned entry is still Pending. -/
theorem failed_leaves_second_owned_entry_counterexample :
    IsAdmitted wlTwoOwned = false ∧
    wlTwoOwned.Status.AdmissionChecks[1]? = some (pendingCheck "gate-b") ∧
    ownedEntry (testEnv "Failed") (twoGateCluster wlTwoOwned) k0.ControllerName
      (pendingCheck "gate-b") = true ∧
    (Controller.Reconcile k0 (testEnv "Failed") (twoGateCluster wlTwoOwned)
      wlTwoOwned.key).1 = (⟨false, 0⟩, none) ∧
    (Controller.Reconcile k0 (testEnv "Failed") (twoGateCluster wlTwoOwned)
      wlTwoOwned.key).2.events =
      [⟨wlTwoOwned.key, .Warning, "Waiting DataOperation failed", "reject workload"⟩] ∧
    storedState (Controller.Reconcile k0 (testEnv "Failed") (twoGateCluster wlTwoOwned)
      wlTwoOwned.key).2 wlTwoOwned.key 0 = some .Rejected ∧
    storedState (Controller.Reconcile k0 (testEnv "Failed") (twoGateCluster wlTwoOwned)
      wlTwoOwned.key).2 wlTwoOwned.key 1 = some .Pending := by
  decide

/-- C2, amended to the first owned entry: for a stored workload that is
fetched, not admitted, has exactly one pod set carrying the operation-type
label, and whose entry at position `i` is the first entry in list order whose
admission check is owned by this controller (the entries before it are fetched
and foreign): when the operation reports *Failed* and the status update
succeeds, the reconcile returns no-requeue without error, the stored entry at
`i` is Rejected with message "waited data operation is failed", and exactly
one event, a Warning, is added to the recorder. -/
theorem reconcile_failed_commits_rejected (k : Constants) (env : Env) (c : Cluster)
    (wl : Workload) (ps : PodSet) (opType : String) (i : Nat) (entry : AdmissionCheckState)
    (hget : env.getWorkloadErr wl.key = none) (hstored : c.workloads wl.key = some wl)
    (hadm : IsAdmitted wl = false) (hps : wl.Spec.PodSets = [ps])
    (hlab : ps.Template.Labels.lookup k.WaitDataOpType = some opType)
    (hop : env.GetDataOperationStatus opType (opRef k ps) = .ok ⟨PhaseFailed⟩)
    (hentry : wl.Status.AdmissionChecks[i]? = some entry)
    (howned : ownedEntry env c k.ControllerName entry = true)
    (hbefore : ∀ e ∈ wl.Status.AdmissionChecks.take i,
      foreignEntry env c k.ControllerName e = true)
    (hupd : env.statusUpdateErr wl.key = none) :
    (Controller.Reconcile k env c wl.key).1 = (⟨false, 0⟩, none) ∧
    ((Controller.Reconcile k env c wl.key).2.workloads wl.key).bind
        (fun stored => stored.Status.AdmissionChecks[i]?) =
      some { entry with
        State := .Rejected
        Message := "waited data operation is failed"
        LastTransitionTime :=
          if entry.State ≠ .Rejected then
            (if entry.LastTransitionTime ≠ 0 then entry.LastTransitionTime else env.now)
          else entry.LastTransitionTime } ∧
    (Controller.Reconcile k env c wl.key).2.events =
      c.events ++ [⟨wl.key, .Warning, "Waiting DataOperation failed", "reject workload"⟩] := by
  have hnames : ∀ e ∈ wl.Status.AdmissionChecks.take i, e.Name ≠ entry.Name := fun e he =>
    name_ne_of_foreign_of_owned env c k.ControllerName e entry (hbefore e he) howned
  have hset := SetAdmissionCheckState_getElem env.now
    { entry with State := .Rejected, Message := "waited data operation is failed" }
    wl.Status.AdmissionChecks i entry hentry rfl hnames
  rw [Reconcile_of_failed k env c wl ps opType hget hstored hadm hps hlab hop]
  rw [updateWorkload_of_owned k env
    (recordEvent { c with opQueries := c.opQueries ++ [(opType, opRef k ps)] } wl.key
      .Warning "Waiting DataOperation failed" "reject workload")
    wl i entry .Rejected _ hstored hentry
    ((ownedEntry_congr env _ c rfl _ _).trans howned)
    (fun e he => (foreignEntry_congr env _ c rfl _ _).trans (hbefore e he)) hupd]
  refine ⟨rfl, ?_, rfl⟩
  simpa [recordEvent] using hset

/-- C3: for a stored workload that is fetched, not admitted and has exactly one
pod set carrying the operation-type label, and for every phase other than
*Complete* and *Failed* that the operation reports: the reconcile performs no
status update, leaves the store as it was, and asks to be requeued after
exactly 10 seconds without error. -/
theorem reconcile_running_requeues_after_10s (k : Constants) (env : Env) (c : Cluster)
    (wl : Workload) (ps : PodSet) (opType phase : String)
    (hget : env.getWorkloadErr wl.key = none) (hstored : c.workloads wl.key = some wl)
    (hadm : IsAdmitted wl = false) (hps : wl.Spec.PodSets = [ps])
    (hlab : ps.Template.Labels.lookup k.WaitDataOpType = some opType)
    (hop : env.GetDataOperationStatus opType (opRef k ps) = .ok ⟨phase⟩)
    (hc : phase ≠ PhaseComplete) (hf : phase ≠ PhaseFailed) :
    (Controller.Reconcile k env c wl.key).1 = (⟨false, 10 * 1000000000⟩, none) ∧
    (Controller.Reconcile k env c wl.key).2.statusUpdates = c.statusUpdates ∧
    (Controller.Reconcile k env c wl.key).2.workloads = c.workloads ∧
    (Controller.Reconcile k env c wl.key).2.events = c.events := by
  rw [Reconcile_of_running k env c wl ps opType phase hget hstored hadm hps hlab hop hc hf]
  exact ⟨rfl, rfl, rfl, rfl⟩

/-- The scenario of the test case "completed dataload", with a foreign entry
in front of the owned one. -/
theorem reconcile_complete_commits_ready_witness :
    (Controller.Reconcile k0 (testEnv "Complete") (testCluster wlPending) wlPending.key).1 =
      (⟨false, 0⟩, none) ∧
    ((Controller.Reconcile k0 (testEnv "Complete") (testCluster wlPending)
        wlPending.key).2.workloads wlPending.key).bind
        (fun stored => stored.Status.AdmissionChecks[1]?) =
      some ⟨"test-check", .Ready, 7, "waited data operation is completed", []⟩ ∧
    (Controller.Reconcile k0 (testEnv "Complete") (testCluster wlPending) wlPending.key).2.events =
      [⟨wlPending.key, .Normal, "Waiting DataOperation completed", "run workload"⟩] :=
  reconcile_complete_commits_ready k0 (testEnv "Complete") (testCluster wlPending) wlPending
    ⟨"main", ⟨gateLabels⟩⟩ "DataLoad" 1 (pendingCheck "test-check")
    rfl (by decide) (by decide) rfl (by decide) rfl rfl (by decide) (by decide) rfl

/-- The scenario of the test case "failed dataprocess", with a foreign entry
in front of the owned one. -/
theorem reconcile_failed_commits_rejected_witness :
    (Controller.Reconcile k0 (testEnv "Failed") (testCluster wlPending) wlPending.key).1 =
      (⟨false, 0⟩, none) ∧
    ((Controller.Reconcile k0 (testEnv "Failed") (testCluster wlPending)
        wlPending.key).2.workloads wlPending.key).bind
        (fun stored => stored.Status.AdmissionChecks[1]?) =
      some ⟨"test-check", .Rejected, 7, "waited data operation is failed", []⟩ ∧
    (Controller.Reconcile k0 (testEnv "Failed") (testCluster wlPending) wlPending.key).2.events =
      [⟨wlPending.key, .Warning, "Waiting DataOperation failed", "reject workload"⟩] :=
  reconcile_failed_commits_rejected k0 (testEnv "Failed") (testCluster wlPending) wlPending
    ⟨"main", ⟨gateLabels⟩⟩ "DataLoad" 1 (pendingCheck "test-check")
    rfl (by decide) (by decide) rfl (by decide) rfl rfl (by decide) (by decide) rfl

/-- The scenario of the test case "running datamigrate". -/
theorem reconcile_running_requeues_after_10s_witness :
    (Controller.Reconcile k0 (testEnv "Executing") (testCluster wlPending) wlPending.key).1 =
      (⟨false, 10 * 1000000000⟩, none) ∧
    (Controller.Reconcile k0 (testEnv "Executing") (testCluster wlPending)
      wlPending.key).2.statusUpdates = 0 ∧
    (Controller.Reconcile k0 (testEnv "Executing") (testCluster wlPending)
      wlPending.key).2.workloads = (testCluster wlPending).workloads ∧
    (Controller.Reconcile k0 (testEnv "Executing") (testCluster wlPending)
      wlPending.key).2.events = [] :=
  reconcile_running_requeues_after_10s k0 (testEnv "Executing") (testCluster wlPending)
    wlPending ⟨"main", ⟨gateLabels⟩⟩ "DataLoad" "Executing"
    rfl (by decide) (by decide) rfl (by decide) rfl (by decide) (by decide)

/-! ## Error handling -/

/-- C5: the claim asks that a NotFound on the workload fetch be absorbed
(no-requeue, no error). On the code the NotFound error is handed to the driver
like every other fetch error: reconciling the name of a workload that the store
does not hold returns the NotFound error itself. -/
theorem reconcile_notFound_fetch_is_returned :
    (testCluster wlPending).workloads ⟨"", "deleted-workload"⟩ = none ∧
    (Controller.Reconcile k0 (testEnv "Complete") (testCluster wlPending)
      ⟨"", "deleted-workload"⟩).1 =
      (⟨false, 0⟩, some (.status .NotFound "deleted-workload not found")) ∧
    IsNotFound (.status .NotFound "deleted-workload not found") = true := by
  refine ⟨by decide, ?_, rfl⟩
  rw [Reconcile_of_fetch_error k0 (testEnv "Complete") (testCluster wlPending)
    ⟨"", "deleted-workload"⟩ (.status .NotFound "deleted-workload not found") rfl]
  rfl

/-- C6: for a stored workload that is fetched, not admitted and has exactly one
pod set carrying the operation-type label, when the operation-status lookup
fails with error `err`: if `err` is a bad request, the reconcile records one
Warning event, performs no status update and returns no-requeue without error;
otherwise it records no event, performs no status update and returns `err` to
the driver. -/
theorem reconcile_lookup_error_absorbs_bad_request (k : Constants) (env : Env) (c : Cluster)
    (wl : Workload) (ps : PodSet) (opType : String) (err : GoError)
    (hget : env.getWorkloadErr wl.key = none) (hstored : c.workloads wl.key = some wl)
    (hadm : IsAdmitted wl = false) (hps : wl.Spec.PodSets = [ps])
    (hlab : ps.Template.Labels.lookup k.WaitDataOpType = some opType)
    (hop : env.GetDataOperationStatus opType (opRef k ps) = .error err) :
    (IsBadRequest err = true →
      (Controller.Reconcile k env c wl.key).1 = (⟨false, 0⟩, none) ∧
      (Controller.Reconcile k env c wl.key).2.events =
        c.events ++ [⟨wl.key, .Warning, k.DataOperationNotValid, err.Error⟩] ∧
      (Controller.Reconcile k env c wl.key).2.statusUpdates = c.statusUpdates ∧
      (Controller.Reconcile k env c wl.key).2.workloads = c.workloads) ∧
    (IsBadRequest err = false →
      (Controller.Reconcile k env c wl.key).1 = (⟨false, 0⟩, some err) ∧
      (Controller.Reconcile k env c wl.key).2.events = c.events ∧
      (Controller.Reconcile k env c wl.key).2.statusUpdates = c.statusUpdates ∧
      (Controller.Reconcile k env c wl.key).2.workloads = c.workloads) := by
  rw [Reconcile_of_lookup_error k env c wl ps opType err hget hstored hadm hps hlab hop]
  constructor
  · intro hbad
    simp only [hbad, if_true]
    exact ⟨rfl, rfl, rfl, rfl⟩
  · intro hbad
    simp only [hbad]
    exact ⟨rfl, rfl, rfl, rfl⟩

/-- A lookup that fails with a bad request on the gated test workload. -/
theorem reconcile_lookup_error_absorbs_bad_request_witness :
    (Controller.Reconcile k0 (testEnvLookupError (.status .BadRequest "unknown type"))
      (testCluster wlPending) wlPending.key).1 = (⟨false, 0⟩, none) ∧
    (Controller.Reconcile k0 (testEnvLookupError (.status .BadRequest "unknown type"))
      (testCluster wlPending) wlPending.key).2.events =
      [⟨wlPending.key, .Warning, "DataOperationNotValid", "unknown type"⟩] ∧
    (Controller.Reconcile k0 (testEnvLookupError (.status .BadRequest "unknown type"))
      (testCluster wlPending) wlPending.key).2.statusUpdates = 0 ∧
    (Controller.Reconcile k0 (testEnvLookupError (.status .BadRequest "unknown type"))
      (testCluster wlPending) wlPending.key).2.workloads = (testCluster wlPending).workloads :=
  (reconcile_lookup_error_absorbs_bad_request k0
    (testEnvLookupError (.status .BadRequest "unknown type")) (testCluster wlPending)
    wlPending ⟨"main", ⟨gateLabels⟩⟩ "DataLoad" (.status .BadRequest "unknown type")
    rfl (by decide) (by decide) rfl (by decide) rfl).1 rfl

/-- C7: for a stored workload that is fetched, not admitted and has exactly one
pod set carrying the operation-type label, whose entries all reference
admission checks that are fetched and foreign (the empty list included): the
commit returns the error "can not find admission check state for
<ControllerName>" and leaves the cluster as it was, and when the operation
reports *Complete* or *Failed* the reconcile hands that error to the driver
without a status update. -/
theorem commit_without_owned_entry_fails (k : Constants) (env : Env) (c : Cluster)
    (wl : Workload) (ps : PodSet) (opType phase : String)
    (hget : env.getWorkloadErr wl.key = none) (hstored : c.workloads wl.key = some wl)
    (hadm : IsAdmitted wl = false) (hps : wl.Spec.PodSets = [ps])
    (hlab : ps.Template.Labels.lookup k.WaitDataOpType = some opType)
    (hop : env.GetDataOperationStatus opType (opRef k ps) = .ok ⟨phase⟩)
    (hphase : phase = PhaseComplete ∨ phase = PhaseFailed)
    (hforeign : ∀ e ∈ wl.Status.AdmissionChecks,
      foreignEntry env c k.ControllerName e = true) :
    (∀ state message, updateWorkload k env c wl state message =
      (some (.plain ("can not find admission check state for " ++ k.ControllerName)), c)) ∧
    (Controller.Reconcile k env c wl.key).1 =
      (⟨false, 0⟩,
        some (.plain ("can not find admission check state for " ++ k.ControllerName))) ∧
    (Controller.Reconcile k env c wl.key).2.statusUpdates = c.statusUpdates ∧
    (Controller.Reconcile k env c wl.key).2.workloads = c.workloads := by
  have hupd : ∀ (c2 : Cluster), c2.admissionChecks = c.admissionChecks →
      ∀ state message, updateWorkload k env c2 wl state message =
        (some (.plain ("can not find admission check state for " ++ k.ControllerName)),
          c2) := by
    intro c2 hc2 state message
    have hscan := getAdmissionCheckState_of_foreign env c2 k.ControllerName
      wl.Status.AdmissionChecks
      (fun e he => (foreignEntry_congr env c2 c hc2 _ e).trans (hforeign e he))
    simp [updateWorkload, hscan]
  refine ⟨hupd c rfl, ?_⟩
  rcases hphase with h | h
  · subst h
    rw [Reconcile_of_complete k env c wl ps opType hget hstored hadm hps hlab hop,
      hupd (recordEvent { c with opQueries := c.opQueries ++ [(opType, opRef k ps)] } wl.key
        .Normal "Waiting DataOperation completed" "run workload") rfl]
    exact ⟨rfl, rfl, rfl⟩
  · subst h
    rw [Reconcile_of_failed k env c wl ps opType hget hstored hadm hps hlab hop,
      hupd (recordEvent { c with opQueries := c.opQueries ++ [(opType, opRef k ps)] } wl.key
        .Warning "Waiting DataOperation failed" "reject workload") rfl]
    exact ⟨rfl, rfl, rfl⟩

/-- The gated test workload with only a foreign entry, operation *Failed*. -/
theorem commit_without_owned_entry_fails_witness :
    (∀ state message,
      updateWorkload k0 (testEnv "Failed") (testCluster wlForeign) wlForeign state message =
        (some (.plain ("can not find admission check state for " ++ k0.ControllerName)),
          testCluster wlForeign)) ∧
    (Controller.Reconcile k0 (testEnv "Failed") (testCluster wlForeign) wlForeign.key).1 =
      (⟨false, 0⟩,
        some (.plain ("can not find admission check state for " ++ k0.ControllerName))) ∧
    (Controller.Reconcile k0 (testEnv "Failed") (testCluster wlForeign)
      wlForeign.key).2.statusUpdates = 0 ∧
    (Controller.Reconcile k0 (testEnv "Failed") (testCluster wlForeign)
      wlForeign.key).2.workloads = (testCluster wlForeign).workloads :=
  commit_without_owned_entry_fails k0 (testEnv "Failed") (testCluster wlForeign) wlForeign
    ⟨"main", ⟨gateLabels⟩⟩ "DataLoad" "Failed"
    rfl (by decide) (by decide) rfl (by decide) rfl (Or.inr rfl) (by decide)

/-! ## Frame properties -/

/-- C9: for a stored workload that is fetched and that is not subject to the
gate (its pod-set list has zero or at least two templates, or its single
template lacks the operation-type label), admitted or not: the reconcile
returns no-requeue without error and leaves the whole cluster state as it was,
so the operation status is not queried, no event is recorded and no status
update is made. -/
theorem reconcile_ungated_is_noop (k : Constants) (env : Env) (c : Cluster) (wl : Workload)
    (hget : env.getWorkloadErr wl.key = none) (hstored : c.workloads wl.key = some wl)
    (hungated : wl.Spec.PodSets.length ≠ 1 ∨
      ∃ ps, wl.Spec.PodSets = [ps] ∧ ps.Template.Labels.lookup k.WaitDataOpType = none) :
    Controller.Reconcile k env c wl.key = ((⟨false, 0⟩, none), c) := by
  have hfetch := clientGetWorkload_of_stored env c wl hget hstored
  rcases hungated with hlen | ⟨ps, hps, hlab⟩
  · exact Reconcile_of_not_single k env c wl.key wl hfetch hlen
  · exact Reconcile_of_no_label k env c wl.key wl ps hfetch hps hlab

/-- The scenario of the test case "no dataop". -/
theorem reconcile_ungated_is_noop_witness :
    Controller.Reconcile k0 (testEnv "Executing") (testCluster wlNoLabel) wlNoLabel.key =
      ((⟨false, 0⟩, none), testCluster wlNoLabel) :=
  reconcile_ungated_is_noop k0 (testEnv "Executing") (testCluster wlNoLabel) wlNoLabel
    rfl (by decide) (Or.inr ⟨⟨"main", ⟨[]⟩⟩, rfl, rfl⟩)

/-- C10: for a stored workload that is fetched and whose admission flag is set,
whatever its pod sets, labels, entries and the phase of the operation: the
reconcile returns no-requeue without error and leaves the whole cluster state
as it was, so the operation status is not queried, no event is recorded and no
status update is made. -/
theorem reconcile_admitted_is_noop (k : Constants) (env : Env) (c : Cluster) (wl : Workload)
    (hget : env.getWorkloadErr wl.key = none) (hstored : c.workloads wl.key = some wl)
    (hadm : IsAdmitted wl = true) :
    Controller.Reconcile k env c wl.key = ((⟨false, 0⟩, none), c) :=
  Reconcile_of_admitted k env c wl.key wl (clientGetWorkload_of_stored env c wl hget hstored) hadm

/-- An admitted workload whose operation now reports *Failed*. -/
theorem reconcile_admitted_is_noop_witness :
    Controller.Reconcile k0 (testEnv "Failed") (testCluster wlAdmitted) wlAdmitted.key =
      ((⟨false, 0⟩, none), testCluster wlAdmitted) :=
  reconcile_admitted_is_noop k0 (testEnv "Failed") (testCluster wlAdmitted) wlAdmitted
    rfl (by decide) (by decide)

/-! ## Workloads without an owned entry -/

/-- C8, as stated, fails: on the gated test workload whose only entry is
foreign, with the operation *Complete*, no entry is owned and yet the reconcile
returns an error to the driver. -/
theorem reconcile_without_owned_entry_counterexample :
    (∀ e ∈ wlForeign.Status.AdmissionChecks,
      ownedEntry (testEnv "Complete") (testCluster wlForeign) k0.ControllerName e = false) ∧
    (Controller.Reconcile k0 (testEnv "Complete") (testCluster wlForeign) wlForeign.key).1 =
      (⟨false, 0⟩,
        some (.plain "can not find admission check state for fluid.io/dataop-gate")) := by
  constructor
  · decide
  · rfl

/-- C8, amended: for a stored workload that is fetched, not admitted and has
exactly one pod set carrying the operation-type label, and of which no entry
resolves to an admission check owned by this controller: for every phase the
operation reports, the reconcile makes no status update and leaves the store as
it was; the result carries no error (requeue after 10 seconds) when the phase
is neither *Complete* nor *Failed*, and carries an error when the phase is
*Complete* or *Failed*. -/
theorem reconcile_without_owned_entry (k : Constants) (env : Env) (c : Cluster)
    (wl : Workload) (ps : PodSet) (opType phase : String)
    (hget : env.getWorkloadErr wl.key = none) (hstored : c.workloads wl.key = some wl)
    (hadm : IsAdmitted wl = false) (hps : wl.Spec.PodSets = [ps])
    (hlab : ps.Template.Labels.lookup k.WaitDataOpType = some opType)
    (hop : env.GetDataOperationStatus opType (opRef k ps) = .ok ⟨phase⟩)
    (hnone : ∀ e ∈ wl.Status.AdmissionChecks,
      ownedEntry env c k.ControllerName e = false) :
    (Controller.Reconcile k env c wl.key).2.statusUpdates = c.statusUpdates ∧
    (Controller.Reconcile k env c wl.key).2.workloads = c.workloads ∧
    (phase ≠ PhaseComplete → phase ≠ PhaseFailed →
      (Controller.Reconcile k env c wl.key).1 = (⟨false, 10 * 1000000000⟩, none)) ∧
    (phase = PhaseComplete ∨ phase = PhaseFailed →
      ∃ err, (Controller.Reconcile k env c wl.key).1 = (⟨false, 0⟩, some err)) := by
  have hupd : ∀ (c2 : Cluster), c2.admissionChecks = c.admissionChecks →
      ∀ state message, ∃ err, updateWorkload k env c2 wl state message = (some err, c2) :=
    fun c2 hc2 state message =>
      updateWorkload_of_none_owned k env c2 wl state message
        (fun e he => (ownedEntry_congr env c2 c hc2 _ e).trans (hnone e he))
  by_cases hf : phase = PhaseFailed
  · subst hf
    obtain ⟨err, herr⟩ := hupd
      (recordEvent { c with opQueries := c.opQueries ++ [(opType, opRef k ps)] } wl.key
        .Warning "Waiting DataOperation failed" "reject workload") rfl
      .Rejected "waited data operation is failed"
    rw [Reconcile_of_failed k env c wl ps opType hget hstored hadm hps hlab hop, herr]
    exact ⟨rfl, rfl, fun _ h => absurd rfl h, fun _ => ⟨err, rfl⟩⟩
  · by_cases hc : phase = PhaseComplete
    · subst hc
      obtain ⟨err, herr⟩ := hupd
        (recordEvent { c with opQueries := c.opQueries ++ [(opType, opRef k ps)] } wl.key
          .Normal "Waiting DataOperation completed" "run workload") rfl
        .Ready "waited data operation is completed"
      rw [Reconcile_of_complete k env c wl ps opType hget hstored hadm hps hlab hop, herr]
      exact ⟨rfl, rfl, fun h _ => absurd rfl h, fun _ => ⟨err, rfl⟩⟩
    · rw [Reconcile_of_running k env c wl ps opType phase hget hstored hadm hps hlab hop hc hf]
      refine ⟨rfl, rfl, fun _ _ => rfl, fun h => ?_⟩
      rcases h with h | h
      · exact absurd h hc
      · exact absurd h hf

/-- The gated test workload with only a foreign entry, operation *Complete*. -/
theorem reconcile_without_owned_entry_witness :
    (Controller.Reconcile k0 (testEnv "Complete") (testCluster wlForeign)
      wlForeign.key).2.statusUpdates = 0 ∧
    (Controller.Reconcile k0 (testEnv "Complete") (testCluster wlForeign)
      wlForeign.key).2.workloads = (testCluster wlForeign).workloads ∧
    ∃ err, (Controller.Reconcile k0 (testEnv "Complete") (testCluster wlForeign)
      wlForeign.key).1 = (⟨false, 0⟩, some err) :=
  have h := reconcile_without_owned_entry k0 (testEnv "Complete") (testCluster wlForeign)
    wlForeign ⟨"main", ⟨gateLabels⟩⟩ "DataLoad" "Complete"
    rfl (by decide) (by decide) rfl (by decide) rfl (by decide)
  ⟨h.1, h.2.1, h.2.2.2 (Or.inl rfl)⟩

/-! ## Admission monotonicity -/

/-- C4, as stated, fails: the gated test workload is not yet admitted and its
owned entry is Ready; a reconcile in which the operation reports *Failed* makes
a status update and leaves the entry Rejected. -/
theorem admission_monotonicity_counterexample :
    storedState (testCluster wlReady) wlReady.key 0 = some .Ready ∧
    ownedEntry (testEnv "Failed") (testCluster wlReady) k0.ControllerName
      ⟨"test-check", .Ready, 2, "waited data operation is completed", []⟩ = true ∧
    storedState (Controller.Reconcile k0 (testEnv "Failed") (testCluster wlReady)
      wlReady.key).2 wlReady.key 0 = some .Rejected ∧
    (testCluster wlReady).statusUpdates = 0 ∧
    (Controller.Reconcile k0 (testEnv "Failed") (testCluster wlReady)
      wlReady.key).2.statusUpdates = 1 := by
  decide

/-- C4, amended: for a stored workload whose owned entry (the first owned entry
in list order, at position `i`) is Ready or Rejected, and for every behaviour
of the store and of the operation-status lookup: (1) the reconcile makes no
status update and leaves the store as it was whenever the fetch of the workload
fails, or the workload is admitted, or the lookup this reconcile makes for the
workload (the operation named by the labels of its single pod set) does not
report *Complete* or *Failed*, which includes the workload that is not subject
to the gate and the lookup that fails; (2) the state of that entry after the
reconcile is the state before, unless the workload is not admitted, has exactly
one pod set carrying the operation-type label, and its operation reports the
opposite outcome (*Failed* for a Ready entry, which is then Rejected;
*Complete* for a Rejected entry, which is then Ready). -/
theorem terminal_entry_changes_only_on_opposite_outcome (k : Constants) (env : Env)
    (c : Cluster) (wl : Workload) (i : Nat) (entry : AdmissionCheckState)
    (hstored : c.workloads wl.key = some wl)
    (hentry : wl.Status.AdmissionChecks[i]? = some entry)
    (howned : ownedEntry env c k.ControllerName entry = true)
    (hbefore : ∀ e ∈ wl.Status.AdmissionChecks.take i,
      foreignEntry env c k.ControllerName e = true)
    (hterm : entry.State = .Ready ∨ entry.State = .Rejected) :
    (((∃ err, env.getWorkloadErr wl.key = some err) ∨ IsAdmitted wl = true ∨
        ∀ ps opType st, wl.Spec.PodSets = [ps] →
          ps.Template.Labels.lookup k.WaitDataOpType = some opType →
          env.GetDataOperationStatus opType (opRef k ps) = .ok st →
          st.Phase ≠ PhaseComplete ∧ st.Phase ≠ PhaseFailed) →
      (Controller.Reconcile k env c wl.key).2.workloads = c.workloads ∧
      (Controller.Reconcile k env c wl.key).2.statusUpdates = c.statusUpdates) ∧
    (storedState (Controller.Reconcile k env c wl.key).2 wl.key i = some entry.State ∨
      (IsAdmitted wl = false ∧
        ∃ ps opType, wl.Spec.PodSets = [ps] ∧
          ps.Template.Labels.lookup k.WaitDataOpType = some opType ∧
          ((entry.State = .Ready ∧
              env.GetDataOperationStatus opType (opRef k ps) = .ok ⟨PhaseFailed⟩ ∧
              storedState (Controller.Reconcile k env c wl.key).2 wl.key i =
                some .Rejected) ∨
            (entry.State = .Rejected ∧
              env.GetDataOperationStatus opType (opRef k ps) = .ok ⟨PhaseComplete⟩ ∧
              storedState (Controller.Reconcile k env c wl.key).2 wl.key i =
                some .Ready)))) := by
  have hsame : ∀ c2 : Cluster, c2.workloads = c.workloads →
      storedState c2 wl.key i = some entry.State := by
    intro c2 h2
    simp [storedState, h2, hstored, hentry]
  cases hfe : env.getWorkloadErr wl.key with
  | some err =>
    have hfetch : clientGetWorkload env c wl.key = .error err := by
      simp [clientGetWorkload, hfe]
    rw [Reconcile_of_fetch_error k env c wl.key err hfetch]
    exact ⟨fun _ => ⟨rfl, rfl⟩, Or.inl (hsame c rfl)⟩
  | none =>
    have hfetch := clientGetWorkload_of_stored env c wl hfe hstored
    cases hadm : IsAdmitted wl with
    | true =>
      rw [Reconcile_of_admitted k env c wl.key wl hfetch hadm]
      exact ⟨fun _ => ⟨rfl, rfl⟩, Or.inl (hsame c rfl)⟩
    | false =>
      by_cases hlen : wl.Spec.PodSets.length ≠ 1
      · rw [Reconcile_of_not_single k env c wl.key wl hfetch hlen]
        exact ⟨fun _ => ⟨rfl, rfl⟩, Or.inl (hsame c rfl)⟩
      · obtain ⟨ps, hps⟩ := List.length_eq_one.mp (not_not.mp hlen)
        cases hlab : ps.Template.Labels.lookup k.WaitDataOpType with
        | none =>
          rw [Reconcile_of_no_label k env c wl.key wl ps hfetch hps hlab]
          exact ⟨fun _ => ⟨rfl, rfl⟩, Or.inl (hsame c rfl)⟩
        | some opType =>
          cases hop : env.GetDataOperationStatus opType (opRef k ps) with
          | error err =>
            rw [Reconcile_of_lookup_error k env c wl ps opType err hfe hstored hadm hps hlab
              hop]
            by_cases hbad : IsBadRequest err = true
            · simp only [hbad, if_true]
              exact ⟨fun _ => ⟨rfl, rfl⟩, Or.inl (hsame _ rfl)⟩
            · simp only [hbad]
              exact ⟨fun _ => ⟨rfl, rfl⟩, Or.inl (hsame _ rfl)⟩
          | ok st =>
            obtain ⟨phase⟩ := st
            by_cases hf : phase = PhaseFailed
            · subst hf
              refine ⟨fun hguard => ?_, ?_⟩
              · exfalso
                rcases hguard with ⟨err, h⟩ | h | h
                · exact Option.noConfusion h
                · exact Bool.noConfusion h
                · exact (h ps opType _ hps hlab hop).2 rfl
              · rw [Reconcile_of_failed k env c wl ps opType hfe hstored hadm hps hlab hop,
                  commit_result_snd]
                have heff := (updateWorkload_effect k env
                  (recordEvent { c with opQueries := c.opQueries ++ [(opType, opRef k ps)] }
                    wl.key .Warning "Waiting DataOperation failed" "reject workload")
                  wl i entry .Rejected "waited data operation is failed" hstored hentry
                  ((ownedEntry_congr env _ c rfl _ _).trans howned)
                  (fun e he => (foreignEntry_congr env _ c rfl _ _).trans (hbefore e he))).2
                rcases heff with heff | heff
                · exact Or.inl (hsame _ heff)
                · rcases hterm with hready | hrej
                  · exact Or.inr ⟨rfl, ps, opType, hps, hlab, Or.inl ⟨hready, hop, heff⟩⟩
                  · exact Or.inl (by rw [heff, hrej])
            · by_cases hc : phase = PhaseComplete
              · subst hc
                refine ⟨fun hguard => ?_, ?_⟩
                · exfalso
                  rcases hguard with ⟨err, h⟩ | h | h
                  · exact Option.noConfusion h
                  · exact Bool.noConfusion h
                  · exact (h ps opType _ hps hlab hop).1 rfl
                · rw [Reconcile_of_complete k env c wl ps opType hfe hstored hadm hps hlab
                    hop, commit_result_snd]
                  have heff := (updateWorkload_effect k env
                    (recordEvent { c with opQueries := c.opQueries ++ [(opType, opRef k ps)] }
                      wl.key .Normal "Waiting DataOperation completed" "run workload")
                    wl i entry .Ready "waited data operation is completed" hstored hentry
                    ((ownedEntry_congr env _ c rfl _ _).trans howned)
                    (fun e he => (foreignEntry_congr env _ c rfl _ _).trans (hbefore e he))).2
                  rcases heff with heff | heff
                  · exact Or.inl (hsame _ heff)
                  · rcases hterm with hready | hrej
                    · exact Or.inl (by rw [heff, hready])
                    · exact Or.inr ⟨rfl, ps, opType, hps, hlab, Or.inr ⟨hrej, hop, heff⟩⟩
              · rw [Reconcile_of_running k env c wl ps opType phase hfe hstored hadm hps hlab
                  hop hc hf]
                exact ⟨fun _ => ⟨rfl, rfl⟩, Or.inl (hsame _ rfl)⟩

/-- The gated test workload whose owned entry is Ready: with the operation
*Executing* the guard of part (1) holds and nothing is written; with the
operation *Failed* part (2) is the instance of the opposite outcome. -/
theorem terminal_entry_changes_only_on_opposite_outcome_witness :
    ((Controller.Reconcile k0 (testEnv "Executing") (testCluster wlReady)
        wlReady.key).2.workloads = (testCluster wlReady).workloads ∧
      (Controller.Reconcile k0 (testEnv "Executing") (testCluster wlReady)
        wlReady.key).2.statusUpdates = (testCluster wlReady).statusUpdates) ∧
    (storedState (Controller.Reconcile k0 (testEnv "Failed") (testCluster wlReady)
        wlReady.key).2 wlReady.key 0 = some .Ready ∨
      (IsAdmitted wlReady = false ∧
        ∃ ps opType, wlReady.Spec.PodSets = [ps] ∧
          ps.Template.Labels.lookup k0.WaitDataOpType = some opType ∧
          ((CheckState.Ready = .Ready ∧
              (testEnv "Failed").GetDataOperationStatus opType (opRef k0 ps) =
                .ok ⟨PhaseFailed⟩ ∧
              storedState (Controller.Reconcile k0 (testEnv "Failed") (testCluster wlReady)
                wlReady.key).2 wlReady.key 0 = some .Rejected) ∨
            (CheckState.Ready = .Rejected ∧
              (testEnv "Failed").GetDataOperationStatus opType (opRef k0 ps) =
                .ok ⟨PhaseComplete⟩ ∧
              storedState (Controller.Reconcile k0 (testEnv "Failed") (testCluster wlReady)
                wlReady.key).2 wlReady.key 0 = some .Ready)))) :=
  ⟨(terminal_entry_changes_only_on_opposite_outcome k0 (testEnv "Executing")
      (testCluster wlReady) wlReady 0
      ⟨"test-check", .Ready, 2, "waited data operation is completed", []⟩
      (by decide) rfl (by decide) (by decide) (Or.inl rfl)).1
      (Or.inr (Or.inr (fun _ _ st _ _ h => by
        have h2 : (Except.ok ⟨"Executing"⟩ : Except GoError OperationStatus) = .ok st := h
        injection h2 with h3
        subst h3
        decide))),
   (terminal_entry_changes_only_on_opposite_outcome k0 (testEnv "Failed")
      (testCluster wlReady) wlReady 0
      ⟨"test-check", .Ready, 2, "waited data operation is completed", []⟩
      (by decide) rfl (by decide) (by decide) (Or.inl rfl)).2⟩

/-! ## The gate activator: auxiliary lemmas -/

/-- The fetch of a stored admission check without injected failure. -/
theorem clientGetAdmissionCheck_of_stored (env : Env) (c : Cluster) (key : NamespacedName)
    (ac : AdmissionCheck) (hget : env.getAdmissionCheckErr key = none)
    (hstored : c.admissionChecks key = some ac) :
    clientGetAdmissionCheck env c key = .ok ac := by
  simp [clientGetAdmissionCheck, hget, hstored]

/-- A failed fetch ends the activation; a NotFound is swallowed. -/
theorem acReconcile_of_fetch_error (k : Constants) (env : Env) (c : Cluster)
    (req : NamespacedName) (err : GoError)
    (hget : clientGetAdmissionCheck env c req = .error err) :
    acReconciler.Reconcile k env c req = ((⟨false, 0⟩, IgnoreNotFound (some err)), c) := by
  simp [acReconciler.Reconcile, hget]

/-- An admission check of another controller is left alone. -/
theorem acReconcile_of_foreign (k : Constants) (env : Env) (c : Cluster)
    (req : NamespacedName) (ac : AdmissionCheck)
    (hget : clientGetAdmissionCheck env c req = .ok ac)
    (hforeign : ac.Spec.ControllerName ≠ k.ControllerName) :
    acReconciler.Reconcile k env c req = ((⟨false, 0⟩, none), c) := by
  simp [acReconciler.Reconcile, hget, hforeign, IgnoreNotFound]

/-- An owned admission check whose Active condition is True is left alone. -/
theorem acReconcile_of_active (k : Constants) (env : Env) (c : Cluster)
    (req : NamespacedName) (ac : AdmissionCheck) (cond : Condition)
    (hget : clientGetAdmissionCheck env c req = .ok ac)
    (howned : ac.Spec.ControllerName = k.ControllerName)
    (hfind : FindStatusCondition ac.Status.Conditions AdmissionCheckActive = some cond)
    (htrue : cond.Status = .True) :
    acReconciler.Reconcile k env c req = ((⟨false, 0⟩, none), c) := by
  simp [acReconciler.Reconcile, hget, howned, hfind, ptrDeref, htrue, NoRequeue, RequeueIfError]

/-- An owned admission check whose Active condition is absent or not True is
given the condition and its status is updated. -/
theorem acReconcile_of_inactive (k : Constants) (env : Env) (c : Cluster)
    (req : NamespacedName) (ac : AdmissionCheck)
    (hget : clientGetAdmissionCheck env c req = .ok ac)
    (howned : ac.Spec.ControllerName = k.ControllerName)
    (hcur : ∀ cond, FindStatusCondition ac.Status.Conditions AdmissionCheckActive = some cond →
      cond.Status ≠ .True) :
    acReconciler.Reconcile k env c req =
      (RequeueIfError (clientStatusUpdateAdmissionCheck env c
        { ac with Status := { ac.Status with
          Conditions := SetStatusCondition env.now ac.Status.Conditions
            (activeCondition 0) } }).1,
       (clientStatusUpdateAdmissionCheck env c
        { ac with Status := { ac.Status with
          Conditions := SetStatusCondition env.now ac.Status.Conditions
            (activeCondition 0) } }).2) := by
  have hne : (ptrDeref (FindStatusCondition ac.Status.Conditions AdmissionCheckActive)
      zeroCondition).Status ≠ .True := by
    cases hfind : FindStatusCondition ac.Status.Conditions AdmissionCheckActive with
    | none => simp [ptrDeref, zeroCondition]
    | some cond => simpa [ptrDeref] using hcur cond hfind
  simp [acReconciler.Reconcile, hget, howned, hne, activeCondition]

/-- After `SetStatusCondition` with the Active condition on a list whose Active
condition is absent or not True, the Active condition found is the new one,
stamped with the current time. -/
theorem FindStatusCondition_SetStatusCondition_active (now : Nat) :
    ∀ l : List Condition,
      (∀ cond, FindStatusCondition l AdmissionCheckActive = some cond → cond.Status ≠ .True) →
      FindStatusCondition (SetStatusCondition now l (activeCondition 0)) AdmissionCheckActive =
        some (activeCondition now)
  | [], _ => by
    simp [SetStatusCondition, FindStatusCondition, activeCondition]
  | e :: rest, h => by
    by_cases he : e.Type_ = AdmissionCheckActive
    · have hs : e.Status ≠ .True := h e (by simp [FindStatusCondition, he])
      simp [SetStatusCondition, FindStatusCondition, activeCondition, he, hs]
    · have hrest : ∀ cond, FindStatusCondition rest AdmissionCheckActive = some cond →
          cond.Status ≠ .True := by
        intro cond hc
        exact h cond (by simpa [FindStatusCondition, he] using hc)
      have ih := FindStatusCondition_SetStatusCondition_active now rest hrest
      simp only [FindStatusCondition] at ih
      simp [SetStatusCondition, FindStatusCondition, activeCondition, he]
      simpa [activeCondition] using ih

/-- `SetStatusCondition` leaves exactly one condition of the type it sets when
the list held at most one. -/
theorem countP_SetStatusCondition (now : Nat) (newCondition : Condition) :
    ∀ l : List Condition,
      l.countP (fun cond => cond.Type_ = newCondition.Type_) ≤ 1 →
      (SetStatusCondition now l newCondition).countP
        (fun cond => cond.Type_ = newCondition.Type_) = 1
  | [], _ => by
    by_cases h0 : newCondition.LastTransitionTime = 0 <;> simp [SetStatusCondition, h0]
  | e :: rest, h => by
    by_cases he : e.Type_ = newCondition.Type_
    · simp [List.countP_cons, he] at h
      simp [SetStatusCondition, he, List.countP_cons]
      simpa using h
    · simp [List.countP_cons, he] at h
      simp [SetStatusCondition, he, List.countP_cons]
      exact countP_SetStatusCondition now newCondition rest h

/-- The activation of an owned, stored admission check whose Active condition
is absent or not True, when the status update succeeds. -/
theorem acReconcile_of_inactive_stored (k : Constants) (env : Env) (c : Cluster)
    (ac : AdmissionCheck)
    (hget : env.getAdmissionCheckErr ac.key = none)
    (hstored : c.admissionChecks ac.key = some ac)
    (howned : ac.Spec.ControllerName = k.ControllerName)
    (hcur : ∀ cond, FindStatusCondition ac.Status.Conditions AdmissionCheckActive = some cond →
      cond.Status ≠ .True)
    (hupd : env.admissionCheckStatusUpdateErr ac.key = none) :
    acReconciler.Reconcile k env c ac.key =
      ((⟨false, 0⟩, none),
        { c with
          statusUpdates := c.statusUpdates + 1
          admissionChecks := Function.update c.admissionChecks ac.key
            (some { ac with Status := { ac.Status with
              Conditions := SetStatusCondition env.now ac.Status.Conditions
                (activeCondition 0) } }) }) := by
  rw [acReconcile_of_inactive k env c ac.key ac
    (clientGetAdmissionCheck_of_stored env c ac.key ac hget hstored) howned hcur]
  simp only [AdmissionCheck.key] at hupd hstored
  simp [clientStatusUpdateAdmissionCheck, AdmissionCheck.key, hupd, hstored, RequeueIfError]

/-! ## The gate activator -/

/-- C11: for an admission check that is stored, fetched, owned by this
controller, and whose Active condition is absent or has a status other than
True: when the status update succeeds, the reconcile returns no-requeue without
error and the Active condition of the stored object is Status True, Reason
"Active", Message "The admission check is active" (stamped with the current
time); it is the only condition of type Active whenever the stored list held at
most one condition of that type, as the store's keyed condition list does. -/
theorem activate_sets_active_condition (k : Constants) (env : Env) (c : Cluster)
    (ac : AdmissionCheck)
    (hget : env.getAdmissionCheckErr ac.key = none)
    (hstored : c.admissionChecks ac.key = some ac)
    (howned : ac.Spec.ControllerName = k.ControllerName)
    (hcur : ∀ cond, FindStatusCondition ac.Status.Conditions AdmissionCheckActive = some cond →
      cond.Status ≠ .True)
    (hupd : env.admissionCheckStatusUpdateErr ac.key = none) :
    (acReconciler.Reconcile k env c ac.key).1 = (⟨false, 0⟩, none) ∧
    (storedConditions (acReconciler.Reconcile k env c ac.key).2 ac.key).bind
        (fun conds => FindStatusCondition conds AdmissionCheckActive) =
      some ⟨AdmissionCheckActive, .True, "Active", "The admission check is active",
        env.now, 0⟩ ∧
    (ac.Status.Conditions.countP (fun cond => cond.Type_ = AdmissionCheckActive) ≤ 1 →
      (storedConditions (acReconciler.Reconcile k env c ac.key).2 ac.key).map
          (fun conds => conds.countP (fun cond => cond.Type_ = AdmissionCheckActive)) =
        some 1) := by
  rw [acReconcile_of_inactive_stored k env c ac hget hstored howned hcur hupd]
  refine ⟨rfl, ?_, ?_⟩
  · have hfind := FindStatusCondition_SetStatusCondition_active env.now
      ac.Status.Conditions hcur
    simpa [storedConditions, activeCondition] using hfind
  · intro hone
    have hcount := countP_SetStatusCondition env.now (activeCondition 0)
      ac.Status.Conditions hone
    simpa [storedConditions, activeCondition] using hcount

/-- The test case "normal case": an owned admission check without conditions. -/
theorem activate_sets_active_condition_witness :
    (acReconciler.Reconcile k0 (testEnv "") (checkCluster (testCheck []))
      (testCheck []).key).1 = (⟨false, 0⟩, none) ∧
    (storedConditions (acReconciler.Reconcile k0 (testEnv "") (checkCluster (testCheck []))
      (testCheck []).key).2 (testCheck []).key).bind
        (fun conds => FindStatusCondition conds AdmissionCheckActive) =
      some ⟨AdmissionCheckActive, .True, "Active", "The admission check is active", 7, 0⟩ ∧
    ((testCheck []).Status.Conditions.countP
        (fun cond => cond.Type_ = AdmissionCheckActive) ≤ 1 →
      (storedConditions (acReconciler.Reconcile k0 (testEnv "") (checkCluster (testCheck []))
        (testCheck []).key).2 (testCheck []).key).map
          (fun conds => conds.countP (fun cond => cond.Type_ = AdmissionCheckActive)) =
        some 1) :=
  activate_sets_active_condition k0 (testEnv "") (checkCluster (testCheck [])) (testCheck [])
    rfl (by decide) rfl (by decide) rfl

/-- C12: idempotence of activation. For an admission check that is stored,
fetched and owned by this controller: (1) when its Active condition has status
True, whatever its reason and message, the reconcile returns no-requeue without
error and leaves the whole cluster state as it was, so no status update is made
and the condition is not reset; (2) when a first reconcile returns no error, a
second one right after it changes nothing, and the two together make at most
one status update; (3) when a first reconcile returns an error, it has left
every stored admission check as it was. -/
theorem activate_is_idempotent (k : Constants) (env : Env) (c : Cluster)
    (ac : AdmissionCheck)
    (hget : env.getAdmissionCheckErr ac.key = none)
    (hstored : c.admissionChecks ac.key = some ac)
    (howned : ac.Spec.ControllerName = k.ControllerName) :
    ((∃ cond, FindStatusCondition ac.Status.Conditions AdmissionCheckActive = some cond ∧
        cond.Status = .True) →
      acReconciler.Reconcile k env c ac.key = ((⟨false, 0⟩, none), c)) ∧
    ((acReconciler.Reconcile k env c ac.key).1.2 = none →
      acReconciler.Reconcile k env (acReconciler.Reconcile k env c ac.key).2 ac.key =
        ((⟨false, 0⟩, none), (acReconciler.Reconcile k env c ac.key).2) ∧
      (acReconciler.Reconcile k env (acReconciler.Reconcile k env c ac.key).2
        ac.key).2.statusUpdates ≤ c.statusUpdates + 1) ∧
    ((acReconciler.Reconcile k env c ac.key).1.2 ≠ none →
      (acReconciler.Reconcile k env c ac.key).2.admissionChecks = c.admissionChecks) := by
  have hfetch := clientGetAdmissionCheck_of_stored env c ac.key ac hget hstored
  have hactive : ∀ (c2 : Cluster) (ac2 : AdmissionCheck), ac2.key = ac.key →
      c2.admissionChecks ac.key = some ac2 →
      ac2.Spec.ControllerName = k.ControllerName →
      (∃ cond, FindStatusCondition ac2.Status.Conditions AdmissionCheckActive = some cond ∧
        cond.Status = .True) →
      acReconciler.Reconcile k env c2 ac.key = ((⟨false, 0⟩, none), c2) := by
    intro c2 ac2 _ hst2 hown2 ⟨cond, hfind, htrue⟩
    exact acReconcile_of_active k env c2 ac.key ac2 cond
      (clientGetAdmissionCheck_of_stored env c2 ac.key ac2 hget hst2) hown2 hfind htrue
  refine ⟨hactive c ac rfl hstored howned, ?_, ?_⟩
  rotate_left
  · intro hfail
    by_cases hcur : ∃ cond, FindStatusCondition ac.Status.Conditions AdmissionCheckActive =
        some cond ∧ cond.Status = .True
    · rw [hactive c ac rfl hstored howned hcur]
    · have hcur2 : ∀ cond, FindStatusCondition ac.Status.Conditions AdmissionCheckActive =
          some cond → cond.Status ≠ .True :=
        fun cond hfind htrue => hcur ⟨cond, hfind, htrue⟩
      cases hupd : env.admissionCheckStatusUpdateErr ac.key with
      | some err =>
        rw [acReconcile_of_inactive k env c ac.key ac hfetch howned hcur2]
        simp only [AdmissionCheck.key] at hupd
        simp [clientStatusUpdateAdmissionCheck, AdmissionCheck.key, hupd]
      | none =>
        rw [acReconcile_of_inactive_stored k env c ac hget hstored howned hcur2 hupd] at hfail
        exact absurd rfl hfail
  intro hok
  by_cases hcur : ∃ cond, FindStatusCondition ac.Status.Conditions AdmissionCheckActive =
      some cond ∧ cond.Status = .True
  · have h1 := hactive c ac rfl hstored howned hcur
    rw [h1]
    exact ⟨h1, by rw [h1]; exact Nat.le_succ _⟩
  · have hcur2 : ∀ cond, FindStatusCondition ac.Status.Conditions AdmissionCheckActive =
        some cond → cond.Status ≠ .True :=
      fun cond hfind htrue => hcur ⟨cond, hfind, htrue⟩
    cases hupd : env.admissionCheckStatusUpdateErr ac.key with
    | some err =>
      rw [acReconcile_of_inactive k env c ac.key ac hfetch howned hcur2] at hok
      simp only [AdmissionCheck.key] at hupd
      simp [clientStatusUpdateAdmissionCheck, AdmissionCheck.key, hupd, RequeueIfError] at hok
    | none =>
      have h1 := acReconcile_of_inactive_stored k env c ac hget hstored howned hcur2 hupd
      have h2 := hactive (acReconciler.Reconcile k env c ac.key).2
        { ac with Status := { ac.Status with
          Conditions := SetStatusCondition env.now ac.Status.Conditions
            (activeCondition 0) } }
        rfl (by rw [h1]; simp) howned
        ⟨activeCondition env.now,
          FindStatusCondition_SetStatusCondition_active env.now ac.Status.Conditions hcur2,
          rfl⟩
      refine ⟨h2, ?_⟩
      rw [h2, h1]

/-- An owned admission check whose Active condition is already True. -/
theorem activate_is_idempotent_witness :
    acReconciler.Reconcile k0 (testEnv "")
        (checkCluster (testCheck [⟨AdmissionCheckActive, .True, "Set", "by hand", 3, 1⟩]))
        (testCheck [⟨AdmissionCheckActive, .True, "Set", "by hand", 3, 1⟩]).key =
      ((⟨false, 0⟩, none),
        checkCluster (testCheck [⟨AdmissionCheckActive, .True, "Set", "by hand", 3, 1⟩])) :=
  (activate_is_idempotent k0 (testEnv "")
    (checkCluster (testCheck [⟨AdmissionCheckActive, .True, "Set", "by hand", 3, 1⟩]))
    (testCheck [⟨AdmissionCheckActive, .True, "Set", "by hand", 3, 1⟩])
    rfl (by decide) rfl).1 ⟨⟨AdmissionCheckActive, .True, "Set", "by hand", 3, 1⟩, rfl, rfl⟩

/-- C13: when the requested admission check is not in the store, or is stored
with a controller name other than this controller's (whatever its conditions),
the reconcile returns no-requeue without error and leaves the whole cluster
state as it was, so no status update is made and every stored admission check
is unchanged; a read error other than NotFound is returned to the caller. -/
theorem activate_ignores_missing_and_foreign (k : Constants) (env : Env) (c : Cluster)
    (req : NamespacedName) :
    (env.getAdmissionCheckErr req = none → c.admissionChecks req = none →
      acReconciler.Reconcile k env c req = ((⟨false, 0⟩, none), c)) ∧
    (∀ ac, env.getAdmissionCheckErr req = none → c.admissionChecks req = some ac →
      ac.Spec.ControllerName ≠ k.ControllerName →
      acReconciler.Reconcile k env c req = ((⟨false, 0⟩, none), c)) ∧
    (∀ err, env.getAdmissionCheckErr req = some err → IsNotFound err = false →
      acReconciler.Reconcile k env c req = ((⟨false, 0⟩, some err), c)) := by
  refine ⟨?_, ?_, ?_⟩
  · intro hget hnone
    have hfetch : clientGetAdmissionCheck env c req = .error (notFoundError req) := by
      simp [clientGetAdmissionCheck, hget, hnone]
    rw [acReconcile_of_fetch_error k env c req _ hfetch]
    simp [IgnoreNotFound, IsNotFound, notFoundError]
  · intro ac hget hstored hforeign
    exact acReconcile_of_foreign k env c req ac
      (clientGetAdmissionCheck_of_stored env c req ac hget hstored) hforeign
  · intro err herr hnf
    have hfetch : clientGetAdmissionCheck env c req = .error err := by
      simp [clientGetAdmissionCheck, herr]
    rw [acReconcile_of_fetch_error k env c req err hfetch]
    simp [IgnoreNotFound, hnf]

/-- The test case with the request `test-not-exist`, and a stored admission
check of another controller whose Active condition is False. -/
theorem activate_ignores_missing_and_foreign_witness :
    acReconciler.Reconcile k0 (testEnv "") (checkCluster (testCheck []))
        ⟨"", "test-not-exist"⟩ =
      ((⟨false, 0⟩, none), checkCluster (testCheck [])) ∧
    acReconciler.Reconcile k0 (testEnv "")
        (checkCluster (foreignCheck [⟨AdmissionCheckActive, .False, "", "", 1, 0⟩]))
        ⟨"", "test"⟩ =
      ((⟨false, 0⟩, none),
        checkCluster (foreignCheck [⟨AdmissionCheckActive, .False, "", "", 1, 0⟩])) :=
  ⟨(activate_ignores_missing_and_foreign k0 (testEnv "") (checkCluster (testCheck []))
      ⟨"", "test-not-exist"⟩).1 rfl (by decide),
   (activate_ignores_missing_and_foreign k0 (testEnv "")
      (checkCluster (foreignCheck [⟨AdmissionCheckActive, .False, "", "", 1, 0⟩]))
      ⟨"", "test"⟩).2.1 (foreignCheck [⟨AdmissionCheckActive, .False, "", "", 1, 0⟩])
      rfl (by decide) (by decide)⟩

/-- C14, as stated, fails: on the owned admission check of the test case
"normal case" the condition that is persisted carries the message
"The admission check is active", with a capital T, which is not the message
"the admission check is active" of the claim. -/
theorem activate_message_counterexample :
    storedConditions (acReconciler.Reconcile k0 (testEnv "") (checkCluster (testCheck []))
      (testCheck []).key).2 (testCheck []).key =
      some [⟨AdmissionCheckActive, .True, "Active", "The admission check is active", 7, 0⟩] ∧
    "The admission check is active" ≠ "the admission check is active" := by
  decide

/-- C14, amended: for an admission check that is stored, fetched and owned by
this controller, when the reconcile makes a status update and returns no error,
the Active condition of the stored object has status True, reason "Active" and
message exactly "The admission check is active". -/
theorem activate_persists_active_true (k : Constants) (env : Env) (c : Cluster)
    (ac : AdmissionCheck)
    (hget : env.getAdmissionCheckErr ac.key = none)
    (hstored : c.admissionChecks ac.key = some ac)
    (howned : ac.Spec.ControllerName = k.ControllerName)
    (hwrite : (acReconciler.Reconcile k env c ac.key).2.statusUpdates = c.statusUpdates + 1)
    (hok : (acReconciler.Reconcile k env c ac.key).1.2 = none) :
    ∃ cond,
      (storedConditions (acReconciler.Reconcile k env c ac.key).2 ac.key).bind
        (fun conds => FindStatusCondition conds AdmissionCheckActive) = some cond ∧
      cond.Type_ = AdmissionCheckActive ∧ cond.Status = .True ∧ cond.Reason = "Active" ∧
      cond.Message = "The admission check is active" := by
  have hfetch := clientGetAdmissionCheck_of_stored env c ac.key ac hget hstored
  by_cases hcur : ∃ cond, FindStatusCondition ac.Status.Conditions AdmissionCheckActive =
      some cond ∧ cond.Status = .True
  · obtain ⟨cond, hfind, htrue⟩ := hcur
    rw [acReconcile_of_active k env c ac.key ac cond hfetch howned hfind htrue] at hwrite
    exact absurd hwrite (Nat.ne_of_lt (Nat.lt_succ_self _))
  · have hcur2 : ∀ cond, FindStatusCondition ac.Status.Conditions AdmissionCheckActive =
        some cond → cond.Status ≠ .True :=
      fun cond hfind htrue => hcur ⟨cond, hfind, htrue⟩
    cases hupd : env.admissionCheckStatusUpdateErr ac.key with
    | some err =>
      rw [acReconcile_of_inactive k env c ac.key ac hfetch howned hcur2] at hok
      simp only [AdmissionCheck.key] at hupd
      simp [clientStatusUpdateAdmissionCheck, AdmissionCheck.key, hupd, RequeueIfError] at hok
    | none =>
      rw [acReconcile_of_inactive_stored k env c ac hget hstored howned hcur2 hupd]
      refine ⟨activeCondition env.now, ?_, rfl, rfl, rfl, rfl⟩
      have hfind := FindStatusCondition_SetStatusCondition_active env.now
        ac.Status.Conditions hcur2
      simpa [storedConditions] using hfind

/-- An owned admission check whose Active condition is False. -/
theorem activate_persists_active_true_witness :
    ∃ cond,
      (storedConditions (acReconciler.Reconcile k0 (testEnv "")
        (checkCluster (testCheck [⟨AdmissionCheckActive, .False, "Down", "off", 3, 1⟩]))
        (testCheck [⟨AdmissionCheckActive, .False, "Down", "off", 3, 1⟩]).key).2
        (testCheck [⟨AdmissionCheckActive, .False, "Down", "off", 3, 1⟩]).key).bind
        (fun conds => FindStatusCondition conds AdmissionCheckActive) = some cond ∧
      cond.Type_ = AdmissionCheckActive ∧ cond.Status = .True ∧ cond.Reason = "Active" ∧
      cond.Message = "The admission check is active" :=
  activate_persists_active_true k0 (testEnv "")
    (checkCluster (testCheck [⟨AdmissionCheckActive, .False, "Down", "off", 3, 1⟩]))
    (testCheck [⟨AdmissionCheckActive, .False, "Down", "off", 3, 1⟩])
    rfl (by decide) rfl (by decide) (by decide)

/-! ## The commit: frame and scan errors -/

/-- An entry returned by the scan is the first owned entry of the list. -/
theorem getAdmissionCheckState_some (env : Env) (c : Cluster) (cn : String) :
    ∀ (l : List AdmissionCheckState) (entry : AdmissionCheckState),
      getAdmissionCheckState env c l cn = .ok (some entry) →
      ∃ i, l[i]? = some entry ∧ ownedEntry env c cn entry = true ∧
        ∀ e ∈ l.take i, foreignEntry env c cn e = true
  | [], entry, h => by simp [getAdmissionCheckState] at h
  | e :: rest, entry, h => by
    simp only [getAdmissionCheckState] at h
    split at h
    · simp at h
    · next ac hac =>
      by_cases hcn : ac.Spec.ControllerName = cn
      · simp [hcn] at h
        subst h
        exact ⟨0, by simp, by simp [ownedEntry, hac, hcn], by simp⟩
      · simp only [hcn, if_false] at h
        obtain ⟨i, hi, ho, hb⟩ := getAdmissionCheckState_some env c cn rest entry h
        refine ⟨i + 1, by simpa using hi, ho, ?_⟩
        intro e2 he2
        simp only [List.take_succ_cons, List.mem_cons] at he2
        rcases he2 with rfl | he2
        · simp [foreignEntry, hac, hcn]
        · exact hb e2 he2

/-- The scan returns the error of the first fetch that fails when every entry
before it is fetched and foreign. -/
theorem getAdmissionCheckState_of_failed_fetch (env : Env) (c : Cluster) (cn : String) :
    ∀ (l : List AdmissionCheckState) (j : Nat) (bad : AdmissionCheckState) (err : GoError),
      l[j]? = some bad → clientGetAdmissionCheck env c ⟨"", bad.Name⟩ = .error err →
      (∀ e ∈ l.take j, foreignEntry env c cn e = true) →
      getAdmissionCheckState env c l cn = .error err
  | [], j, bad, err, h, _, _ => by simp at h
  | e :: rest, 0, bad, err, h, herr, _ => by
    simp at h
    subst h
    simp [getAdmissionCheckState, herr]
  | e :: rest, j + 1, bad, err, h, herr, hb => by
    have he : foreignEntry env c cn e = true := hb e (by simp)
    have hrest : ∀ e2 ∈ rest.take j, foreignEntry env c cn e2 = true := fun e2 h2 =>
      hb e2 (by simp [h2])
    simp only [foreignEntry] at he
    simp only [getAdmissionCheckState]
    split
    · next err2 herr2 => simp [herr2] at he
    · next ac hac =>
      simp [hac] at he
      simp only [he, if_false]
      exact getAdmissionCheckState_of_failed_fetch env c cn rest j bad err
        (by simpa using h) herr hrest

/-- `SetAdmissionCheckState` rewrites the first position that carries the name
of the new check and nothing else. -/
theorem SetAdmissionCheckState_eq_set (now : Nat) (newCheck : AdmissionCheckState) :
    ∀ (l : List AdmissionCheckState) (i : Nat) (entry : AdmissionCheckState),
      l[i]? = some entry → entry.Name = newCheck.Name →
      (∀ e ∈ l.take i, e.Name ≠ newCheck.Name) →
      SetAdmissionCheckState now l newCheck = l.set i
        { entry with
          State := newCheck.State
          LastTransitionTime :=
            if entry.State ≠ newCheck.State then
              (if newCheck.LastTransitionTime ≠ 0 then newCheck.LastTransitionTime else now)
            else entry.LastTransitionTime
          Message := newCheck.Message
          PodSetUpdates := newCheck.PodSetUpdates }
  | [], i, entry, h, _, _ => by simp at h
  | e :: rest, 0, entry, h, hn, _ => by
    simp at h
    subst h
    simp [SetAdmissionCheckState, hn]
  | e :: rest, i + 1, entry, h, hn, hb => by
    have he : e.Name ≠ newCheck.Name := hb e (by simp)
    have hrest : ∀ e2 ∈ rest.take i, e2.Name ≠ newCheck.Name := fun e2 h2 =>
      hb e2 (by simp [h2])
    simp only [SetAdmissionCheckState, he, if_false, List.set_cons_succ]
    rw [SetAdmissionCheckState_eq_set now newCheck rest i entry (by simpa using h) hn hrest]

/-- C15: for every workload, state and message, a commit that succeeds has
resolved the first entry in list order whose admission check is owned (entry
`i`: it is owned and every entry before it is fetched and foreign), it has made
one status update, and the stored list of entries is the given list with
position `i` alone rewritten: that entry keeps its name and pod-set updates and
takes the state, the message and, when the state changes, a transition time.
The list keeps its length and order and every other entry, a later entry of the
same name or a later owned entry included, is as it was; so are the rest of the
stored workload and of the cluster. -/
theorem updateWorkload_frame (k : Constants) (env : Env) (c : Cluster) (wl : Workload)
    (state : CheckState) (message : String)
    (hok : (updateWorkload k env c wl state message).1 = none) :
    ∃ i entry stored,
      wl.Status.AdmissionChecks[i]? = some entry ∧
      ownedEntry env c k.ControllerName entry = true ∧
      (∀ e ∈ wl.Status.AdmissionChecks.take i,
        foreignEntry env c k.ControllerName e = true) ∧
      c.workloads wl.key = some stored ∧
      (updateWorkload k env c wl state message).2 =
        { c with
          statusUpdates := c.statusUpdates + 1
          workloads := Function.update c.workloads wl.key
            (some { stored with Status := { wl.Status with
              AdmissionChecks := wl.Status.AdmissionChecks.set i
                { entry with
                  State := state
                  Message := message
                  LastTransitionTime :=
                    if entry.State ≠ state then
                      (if entry.LastTransitionTime ≠ 0 then entry.LastTransitionTime
                        else env.now)
                    else entry.LastTransitionTime } } }) } := by
  cases hscan : getAdmissionCheckState env c wl.Status.AdmissionChecks k.ControllerName with
  | error err => simp [updateWorkload, hscan] at hok
  | ok found =>
    cases found with
    | none => simp [updateWorkload, hscan] at hok
    | some entry =>
      obtain ⟨i, hentry, howned, hbefore⟩ := getAdmissionCheckState_some env c
        k.ControllerName wl.Status.AdmissionChecks entry hscan
      have hnames : ∀ e ∈ wl.Status.AdmissionChecks.take i, e.Name ≠ entry.Name :=
        fun e he =>
          name_ne_of_foreign_of_owned env c k.ControllerName e entry (hbefore e he) howned
      have hset := SetAdmissionCheckState_eq_set env.now
        { entry with State := state, Message := message }
        wl.Status.AdmissionChecks i entry hentry rfl hnames
      cases hupd : env.statusUpdateErr wl.key with
      | some err =>
        simp only [Workload.key] at hupd
        simp [updateWorkload, hscan, clientStatusUpdateWorkload, Workload.key, hupd] at hok
      | none =>
        cases hstored : c.workloads wl.key with
        | none =>
          simp only [Workload.key] at hupd hstored
          simp [updateWorkload, hscan, clientStatusUpdateWorkload, Workload.key, hupd,
            hstored] at hok
        | some stored =>
          refine ⟨i, entry, stored, hentry, howned, hbefore, rfl, ?_⟩
          simp only [Workload.key] at hupd hstored
          simp only [updateWorkload, hscan, clientStatusUpdateWorkload, Workload.key, hupd,
            hstored, hset]

/-- A commit on the workload whose owned entry is followed by an entry of the
same name. -/
theorem updateWorkload_frame_witness :
    ∃ i entry stored,
      wlTwice.Status.AdmissionChecks[i]? = some entry ∧
      ownedEntry (testEnv "Complete") (testCluster wlTwice) k0.ControllerName entry = true ∧
      (∀ e ∈ wlTwice.Status.AdmissionChecks.take i,
        foreignEntry (testEnv "Complete") (testCluster wlTwice) k0.ControllerName e = true) ∧
      (testCluster wlTwice).workloads wlTwice.key = some stored ∧
      (updateWorkload k0 (testEnv "Complete") (testCluster wlTwice) wlTwice .Ready "done").2 =
        { testCluster wlTwice with
          statusUpdates := (testCluster wlTwice).statusUpdates + 1
          workloads := Function.update (testCluster wlTwice).workloads wlTwice.key
            (some { stored with Status := { wlTwice.Status with
              AdmissionChecks := wlTwice.Status.AdmissionChecks.set i
                { entry with
                  State := .Ready
                  Message := "done"
                  LastTransitionTime :=
                    if entry.State ≠ .Ready then
                      (if entry.LastTransitionTime ≠ 0 then entry.LastTransitionTime
                        else (testEnv "Complete").now)
                    else entry.LastTransitionTime } } }) } :=
  updateWorkload_frame k0 (testEnv "Complete") (testCluster wlTwice) wlTwice .Ready "done"
    (by decide)

/-- C16: the scan goes through the entries in order. (1) It returns the first
entry whose admission check has the given controller name, when every entry
before it is fetched and foreign. (2) When the fetch for an entry fails with
`err`, NotFound included, and every entry before it is fetched and foreign, the
scan returns `err` and no entry, whatever follows in the list, an owned entry
included. (3) Then the commit returns `err` and leaves the cluster as it was,
and the reconcile of a gated workload whose operation is *Complete* or *Failed*
returns `err` to the driver without a status update. -/
theorem scan_stops_at_failed_fetch (k : Constants) (env : Env) (c : Cluster) :
    (∀ (l : List AdmissionCheckState) (cn : String) (i : Nat) (entry : AdmissionCheckState),
      l[i]? = some entry → ownedEntry env c cn entry = true →
      (∀ e ∈ l.take i, foreignEntry env c cn e = true) →
      getAdmissionCheckState env c l cn = .ok (some entry)) ∧
    (∀ (l : List AdmissionCheckState) (cn : String) (j : Nat) (bad : AdmissionCheckState)
      (err : GoError),
      l[j]? = some bad → clientGetAdmissionCheck env c ⟨"", bad.Name⟩ = .error err →
      (∀ e ∈ l.take j, foreignEntry env c cn e = true) →
      getAdmissionCheckState env c l cn = .error err) ∧
    (∀ (wl : Workload) (ps : PodSet) (opType phase : String) (j : Nat)
      (bad : AdmissionCheckState) (err : GoError),
      env.getWorkloadErr wl.key = none → c.workloads wl.key = some wl →
      IsAdmitted wl = false → wl.Spec.PodSets = [ps] →
      ps.Template.Labels.lookup k.WaitDataOpType = some opType →
      env.GetDataOperationStatus opType (opRef k ps) = .ok ⟨phase⟩ →
      (phase = PhaseComplete ∨ phase = PhaseFailed) →
      wl.Status.AdmissionChecks[j]? = some bad →
      clientGetAdmissionCheck env c ⟨"", bad.Name⟩ = .error err →
      (∀ e ∈ wl.Status.AdmissionChecks.take j,
        foreignEntry env c k.ControllerName e = true) →
      (∀ state message, updateWorkload k env c wl state message = (some err, c)) ∧
      (Controller.Reconcile k env c wl.key).1 = (⟨false, 0⟩, some err) ∧
      (Controller.Reconcile k env c wl.key).2.statusUpdates = c.statusUpdates ∧
      (Controller.Reconcile k env c wl.key).2.workloads = c.workloads) := by
  refine ⟨fun l cn => getAdmissionCheckState_first env c cn l,
    fun l cn => getAdmissionCheckState_of_failed_fetch env c cn l, ?_⟩
  intro wl ps opType phase j bad err hget hstored hadm hps hlab hop hphase hbad herr hbefore
  have hupd : ∀ (c2 : Cluster), c2.admissionChecks = c.admissionChecks →
      ∀ state message, updateWorkload k env c2 wl state message = (some err, c2) := by
    intro c2 hc2 state message
    have hscan := getAdmissionCheckState_of_failed_fetch env c2 k.ControllerName
      wl.Status.AdmissionChecks j bad err hbad
      ((clientGetAdmissionCheck_congr env c2 c hc2 _).trans herr)
      (fun e he => (foreignEntry_congr env c2 c hc2 _ e).trans (hbefore e he))
    simp [updateWorkload, hscan]
  refine ⟨hupd c rfl, ?_⟩
  rcases hphase with h | h
  · subst h
    rw [Reconcile_of_complete k env c wl ps opType hget hstored hadm hps hlab hop,
      hupd (recordEvent { c with opQueries := c.opQueries ++ [(opType, opRef k ps)] } wl.key
        .Normal "Waiting DataOperation completed" "run workload") rfl]
    exact ⟨rfl, rfl, rfl⟩
  · subst h
    rw [Reconcile_of_failed k env c wl ps opType hget hstored hadm hps hlab hop,
      hupd (recordEvent { c with opQueries := c.opQueries ++ [(opType, opRef k ps)] } wl.key
        .Warning "Waiting DataOperation failed" "reject workload") rfl]
    exact ⟨rfl, rfl, rfl⟩

/-- The gated workload whose first entry references a missing admission check
and whose second entry is owned, operation *Complete*. -/
theorem scan_stops_at_failed_fetch_witness :
    ownedEntry (testEnv "Complete") (testCluster wlBroken) k0.ControllerName
      (pendingCheck "test-check") = true ∧
    (∀ state message,
      updateWorkload k0 (testEnv "Complete") (testCluster wlBroken) wlBroken state message =
        (some (.status .NotFound "missing-check not found"), testCluster wlBroken)) ∧
    (Controller.Reconcile k0 (testEnv "Complete") (testCluster wlBroken) wlBroken.key).1 =
      (⟨false, 0⟩, some (.status .NotFound "missing-check not found")) ∧
    (Controller.Reconcile k0 (testEnv "Complete") (testCluster wlBroken)
      wlBroken.key).2.statusUpdates = 0 ∧
    (Controller.Reconcile k0 (testEnv "Complete") (testCluster wlBroken)
      wlBroken.key).2.workloads = (testCluster wlBroken).workloads :=
  ⟨by decide,
   (scan_stops_at_failed_fetch k0 (testEnv "Complete") (testCluster wlBroken)).2.2
    wlBroken ⟨"main", ⟨gateLabels⟩⟩ "DataLoad" "Complete" 0 (pendingCheck "missing-check")
    (.status .NotFound "missing-check not found")
    rfl (by decide) (by decide) rfl (by decide) rfl (Or.inl rfl) rfl rfl (by decide)⟩

end Fluid.Kueue
